import Mathlib

/-!
# COVID-19 simulation: the `Simulator` day loop and the sweep of `main`

A shallow embedding of `src/src/simulation.cpp`.

* `uint32_t` values are natural numbers reduced modulo `2^32` wherever the
  source computes with them; `int32_t cumulative_positive` is an integer kept
  in the range `[-2^31, 2^31)` by `toInt32`.
* `double` values are elements of a linearly ordered field `E` with a floor
  function (`ℚ` in the concrete runs), so that comparisons are total.
* The state of `std::mt19937 random_generator_` is a value of a type `G`
  that every sampler takes and returns.
* The headers `generators.h`, `person.h`, `result.h` and `stats.h` are not part
  of the sources; what `simulation.cpp` uses from them is collected in the
  structure `Env` and in `GeneratorInterface`. The general theorems hold for all
  their values; the concrete runs fix them in `tableEnv` and `unitGenerator`.
* Sizes of vectors, day numbers and the entries of `infected`, `daily_positive`
  and `dead_count` are natural numbers without wrap-around: they are bounded by
  the number of persons and days held in memory.
-/

namespace Simulation

/-! ## Constants of `simulation.cpp` -/

/-- Extra simulated days of infections (`kExtraDays`). -/
def kExtraDays : Nat := 10

/-- The 0-indexed restriction day (`kRestrictionDay`). -/
def kRestrictionDay : Nat := 11

/-- Length of the symptom course (`kSymptomsLength`). -/
def kSymptomsLength : Nat := 28

/-- Number of replicates per grid point in `main` (`kIterations`). -/
def kIterations : Nat := 50

/-! ## Machine integers -/

/-- Reduction of a natural number to `uint32_t`. -/
def u32 (n : Nat) : Nat := n % 2 ^ 32

/-- Conversion of an integer to `int32_t` (two's complement wrap). -/
def toInt32 (z : Int) : Int := (z + 2 ^ 31) % 2 ^ 32 - 2 ^ 31

/-- Conversion of an `int32_t` value to `uint32_t`. -/
def toUInt32 (z : Int) : Nat := (z % 2 ^ 32).toNat

/-! ## The constructor `Simulator::Simulator` -/

/-- The data members of `Simulator` other than the random generator. -/
structure Simulator where
  t0_ : Nat
  tested_ : List Nat
  positive_ : List Nat
deriving Repr, DecidableEq

/-- The loop of `std::partial_sum` after the first element: `acc` is the
running `uint32_t` sum, written to the output at every position. -/
def partial_sum_go (acc : Nat) : List Nat → List Nat
  | [] => []
  | x :: xs => u32 (acc + x) :: partial_sum_go (u32 (acc + x)) xs

/-- In-place `std::partial_sum` over a `std::vector<uint32_t>`: the first
element is copied, every later one is the wrapped running sum. -/
def partial_sum : List Nat → List Nat
  | [] => []
  | x :: xs => x :: partial_sum_go x xs

/-- `Simulator::Simulator(prefix_length, positive, tested)`: both vectors start
as `prefix_length + 1` zeros (the count computed in `uint32_t`), the series are
appended with `std::copy`, and `positive_` is replaced by its partial sums. -/
def Simulator.create (prefix_length : Nat) (positive tested : List Nat) : Simulator :=
  { t0_ := u32 (kRestrictionDay + prefix_length + 1)
    tested_ := List.replicate (u32 (prefix_length + 1)) 0 ++ tested
    positive_ := partial_sum (List.replicate (u32 (prefix_length + 1)) 0 ++ positive) }

/-! ## What the missing headers provide -/

/-- A `Person` as built by `persons.emplace_back(symptoms, length, day)`: the
three constructor arguments. -/
structure Person (E : Type) where
  symptoms : E
  length : Int
  day : Nat

/-- The functions and constants that `simulation.cpp` takes from `person.h`,
`stats.h` and the standard library samplers. Each sampler takes the generator
state and returns the draw with the new state. -/
structure Env (E G : Type) where
  /-- `kPopulationSize` of `stats.h`. -/
  kPopulationSize : E
  /-- The table `bs` of `stats.h` (second Beta shape per age decade). -/
  bs : Nat → E
  /-- `generate_age(&random_generator_)`. -/
  generate_age : G → Nat × G
  /-- `beta_distribution(alpha, beta, &random_generator_)`. -/
  beta_distribution : E → E → G → E × G
  /-- `std::uniform_int_distribution<> uniform(0, 14)` applied to the generator. -/
  uniform : G → Nat × G
  /-- `std::poisson_distribution<> poisson(mean)` applied to the generator. -/
  poisson : E → G → Nat × G
  /-- `qbeta(beta0, quantile)` of `stats.h`. -/
  qbeta : E → E → E
  /-- `log_distance_probability(cumulative_positive, positive_[day])`. -/
  log_distance_probability : Int → Nat → E
  /-- `Person::CurrentSymptoms(day)`. -/
  CurrentSymptoms : Person E → Nat → E
  /-- `Person::DateOfDeath()`. -/
  DateOfDeath : Person E → Option Nat

/-- `GeneratorInterface`: `CreateDeltas(t0, n)` gives the daily means. -/
structure GeneratorInterface (E : Type) where
  CreateDeltas : Nat → Nat → List E

/-- The fields of `SimulationResult` (`result.h`) that `simulation.cpp` reads
and writes. `SimulationResult result(infected)` stores the drawn series; the
two vectors start empty. -/
structure SimulationResult (E : Type) where
  infected : List Nat
  daily_positive : List Nat
  dead_count : List Nat
  error : E

/-- The two ways the body of `Simulate` can leave defined behaviour: the
`assert` on `tested_` fails, or a vector is read past its end. -/
inductive Fault where
  | assertion
  | out_of_range
deriving Repr, DecidableEq

/-! ## `Simulator::GenerateInfected` -/

section Day

variable {E G : Type} [LinearOrderedField E] [FloorRing E]

/-- The loop of `GenerateInfected`: one Poisson draw per mean, in order. -/
def drawInfected (env : Env E G) : List E → G → List Nat × G
  | [], g => ([], g)
  | mean :: rest, g =>
    ((env.poisson mean g).1 :: (drawInfected env rest (env.poisson mean g).2).1,
      (drawInfected env rest (env.poisson mean g).2).2)

/-- `Simulator::GenerateInfected(generator)`. -/
def GenerateInfected (env : Env E G) (sim : Simulator) (generator : GeneratorInterface E)
    (g : G) : List Nat × G :=
  drawInfected env (generator.CreateDeltas sim.t0_ (sim.tested_.length + kExtraDays)) g

/-! ## `Simulator::Simulate` -/

/-- The local variables of `Simulate` that the day loop updates, with the
generator state. -/
structure DayState (E G : Type) where
  persons : List (Person E)
  result : SimulationResult E
  cumulative_positive : Int
  g : G

/-- The lines `if (dead_count.size() <= date) dead_count.resize(date + 1);
++dead_count[date];` (dates of death are taken below `2^32 - 1`). -/
def recordDeath (dead_count : List Nat) (date : Nat) : List Nat :=
  let resized :=
    if dead_count.length ≤ date then
      dead_count ++ List.replicate (date + 1 - dead_count.length) 0
    else dead_count
  resized.set date (resized.getD date 0 + 1)

/-- One iteration of the inner loop of `Simulate`: draw the age, the symptoms
and the uniform offset, append the new `Person`, record its death. -/
def admitOne (env : Env E G) (day : Nat) (st : DayState E G) : DayState E G :=
  let age := env.generate_age st.g
  let symptoms := env.beta_distribution 1 (env.bs age.1) age.2
  let offset := env.uniform symptoms.2
  let person : Person E :=
    { symptoms := symptoms.1
      length := ⌈symptoms.1 * (kSymptomsLength : E) + (offset.1 : E)⌉
      day := day }
  { persons := st.persons ++ [person]
    result :=
      { st.result with
        dead_count :=
          match env.DateOfDeath person with
          | some date => recordDeath st.result.dead_count date
          | none => st.result.dead_count }
    cumulative_positive := st.cumulative_positive
    g := offset.2 }

/-- The inner loop `for (i = 0; i < infected[day]; ++i)`. -/
def admitLoop (env : Env E G) (day : Nat) : Nat → DayState E G → DayState E G
  | 0, st => st
  | n + 1, st => admitLoop env day n (admitOne env day st)

/-- The testing quantile of the day, `1 - double(tested_[day]) / kPopulationSize`. -/
def quantile (env : Env E G) (tested : Nat) : E :=
  1 - (tested : E) / env.kPopulationSize

/-- The predicate given to `std::partition`: `CurrentSymptoms(day) < threshold`. -/
def undetected (env : Env E G) (day : Nat) (threshold : E) (ca : Person E) : Bool :=
  decide (env.CurrentSymptoms ca day < threshold)

/-- The guard `cumulative_positive + positive_[day] > 0`: the `int32_t` operand
is converted to `uint32_t` and the sum is taken modulo `2^32`. -/
def scored (cumulative_positive : Int) (positive : Nat) : Bool :=
  decide (0 < u32 (toUInt32 cumulative_positive + positive))

/-- The rest of the day after admission: the assertion, the threshold, the
partition of the roster (`std::partition` fixes the two groups, not the order
inside them; nothing in `Simulate` reads that order, and the groups are kept in
roster order here), the counts, the score and the `resize`. -/
def detect (env : Env E G) (sim : Simulator) (beta0 : E) (day : Nat)
    (st : DayState E G) : Except Fault (DayState E G) :=
  match sim.tested_[day]? with
  | none => .error Fault.assertion
  | some tested =>
    let threshold := env.qbeta beta0 (quantile env tested)
    let parts := st.persons.partition (undetected env day threshold)
    let cumulative_positive := toInt32 (st.cumulative_positive + (parts.2.length : Int))
    match sim.positive_[day]? with
    | none => .error Fault.out_of_range
    | some positive =>
      .ok
        { persons := parts.1
          result :=
            { st.result with
              daily_positive := st.result.daily_positive ++ [parts.2.length]
              error :=
                if scored cumulative_positive positive then
                  st.result.error - env.log_distance_probability cumulative_positive positive
                else st.result.error }
          cumulative_positive := cumulative_positive
          g := st.g }

/-- The body of the day loop: read `infected[day]`, admit that many persons,
then run the detection of the day. -/
def dayStep (env : Env E G) (sim : Simulator) (beta0 : E) (infected : List Nat) (day : Nat)
    (st : DayState E G) : Except Fault (DayState E G) :=
  match infected[day]? with
  | none => .error Fault.out_of_range
  | some count => detect env sim beta0 day (admitLoop env day count st)

/-- The loop `for (day = 0; day < positive_.size(); ++day)`, with `n` the number
of days still to run and `infected` the local vector of drawn counts. -/
def dayLoop (env : Env E G) (sim : Simulator) (beta0 : E) (infected : List Nat) :
    Nat → Nat → DayState E G → Except Fault (DayState E G)
  | 0, _, st => .ok st
  | n + 1, day, st =>
    match dayStep env sim beta0 infected day st with
    | .error e => .error e
    | .ok next => dayLoop env sim beta0 infected n (day + 1) next

/-- The state of `Simulate` before the day loop: an empty roster,
`SimulationResult result(infected)` with `error = 0`, no positives counted. -/
def initialState (infected : List Nat) (g : G) : DayState E G :=
  { persons := []
    result := { infected := infected, daily_positive := [], dead_count := [], error := 0 }
    cumulative_positive := 0
    g := g }

/-- `Simulator::Simulate(beta0, generator)`, from the generator state `g`;
returns the result and the generator state left behind. -/
def Simulate (env : Env E G) (sim : Simulator) (beta0 : E) (generator : GeneratorInterface E)
    (g : G) : Except Fault (SimulationResult E × G) :=
  let infected := GenerateInfected env sim generator g
  match dayLoop env sim beta0 infected.1 sim.positive_.length 0
      (initialState infected.1 infected.2) with
  | .error e => .error e
  | .ok st => .ok (st.result, st.g)

/-! ## The sweep of `main` for one `prefix_length` -/

/-- A `YAML::Node` of `nodes`: the grid value `b0` and the result of every
replicate pushed to `node["results"]`. -/
structure Node (E : Type) where
  b0 : Nat
  results : List (SimulationResult E)

/-- The variables of the replicate loop: the two running sums, the results
pushed so far and the generator state of the simulator. -/
structure ReplicateState (E G : Type) where
  sum_error : E
  dead_count : E
  results : List (SimulationResult E)
  g : G

/-- The loop `for (i = 0; i < kIterations; ++i)`, with `n` the iterations left.
`std::accumulate(..., 0)` is the total of the replicate's `dead_count` (a count
of persons, below `2^31`), added to the `double` sum. -/
def replicateLoop (env : Env E G) (sim : Simulator) (generator : GeneratorInterface E)
    (b0 : Nat) : Nat → ReplicateState E G → Except Fault (ReplicateState E G)
  | 0, st => .ok st
  | n + 1, st =>
    match Simulate env sim (b0 : E) generator st.g with
    | .error e => .error e
    | .ok out =>
      replicateLoop env sim generator b0 n
        { sum_error := st.sum_error + out.1.error
          dead_count := st.dead_count + (out.1.dead_count.sum : E)
          results := st.results ++ [out.1]
          g := out.2 }

/-- The variables of the `b0` loop: `optimal_dead_count` is declared without
an initial value (`none`), `nodes` are the nodes pushed by this sweep. -/
structure SweepState (E G : Type) where
  optimal_b0 : Nat
  optimal_dead_count : Option Nat
  best : E
  nodes : List (Node E)
  g : G

/-- The body of the `b0` loop: the replicates, the two means, and the update
`if (sum_error < best)`; storing the `double` mean in the `uint32_t`
`optimal_dead_count` drops its fractional part. -/
def gridPoint (env : Env E G) (sim : Simulator) (generator : GeneratorInterface E)
    (b0 : Nat) (st : SweepState E G) : Except Fault (SweepState E G) :=
  match replicateLoop env sim generator b0 kIterations
      { sum_error := 0, dead_count := 0, results := [], g := st.g } with
  | .error e => .error e
  | .ok rep =>
    if rep.sum_error / (kIterations : E) < st.best then
      .ok
        { optimal_b0 := b0
          optimal_dead_count := some ⌊rep.dead_count / (kIterations : E)⌋₊
          best := rep.sum_error / (kIterations : E)
          nodes := st.nodes ++ [{ b0 := b0, results := rep.results }]
          g := rep.g }
    else
      .ok { st with nodes := st.nodes ++ [{ b0 := b0, results := rep.results }], g := rep.g }

/-- The values taken by `b0` in `for (b0 = 60; b0 <= 200; b0 += 3)`:
`60, 63, ..., 198` (the next value, `201`, ends the loop). -/
def grid : List Nat := List.range' 60 47 3

/-- The `b0` loop over the values still to visit. -/
def gridLoop (env : Env E G) (sim : Simulator) (generator : GeneratorInterface E) :
    List Nat → SweepState E G → Except Fault (SweepState E G)
  | [], st => .ok st
  | b0 :: rest, st =>
    match gridPoint env sim generator b0 st with
    | .error e => .error e
    | .ok next => gridLoop env sim generator rest next

/-- One iteration of the `prefix_length` loop of `main`, from the seed state `g`
of the simulator's generator. The fields `optimal_b0`, `optimal_dead_count` and
`best` of the final state are what the output line prints after `prefix_length`. -/
def sweep (env : Env E G) (generator : GeneratorInterface E) (prefix_length : Nat)
    (positive tested : List Nat) (g : G) : Except Fault (SweepState E G) :=
  gridLoop env (Simulator.create prefix_length positive tested) generator grid
    { optimal_b0 := u32 (2 ^ 32 - 1)
      optimal_dead_count := none
      best := 10 ^ 10
      nodes := []
      g := g }

/-- The mean error of a node: the sum of its replicates' errors over `kIterations`. -/
def Node.meanError (node : Node E) : E :=
  (node.results.map (fun r => r.error)).sum / (kIterations : E)

/-- The mean total deaths of a node: the sum over its replicates of the total of
`dead_count`, over `kIterations`. -/
def Node.meanDeaths (node : Node E) : E :=
  (node.results.map (fun r => (r.dead_count.sum : E))).sum / (kIterations : E)

end Day

/-! ## Concrete runs

A deterministic environment over `ℚ` whose generator state counts the draws
made so far. -/

/-- Modelled from the spec: `Person::CurrentSymptoms` of `person.h`, in the
realization of section 4.3: the severity on `[d_inf, d_inf + course_days)`,
zero outside. -/
def windowSymptoms (p : Person ℚ) (day : Nat) : ℚ :=
  if p.day ≤ day ∧ (day : Int) < (p.day : Int) + p.length then p.symptoms else 0

/-- Modelled from the spec: `Person::DateOfDeath` of `person.h`: present iff
the severity exceeds `0.5`, with value `d_inf + course_days`. -/
def deathDate (p : Person ℚ) : Option Nat :=
  if 1 / 2 < p.symptoms then some (((p.day : Int) + p.length).toNat) else none

/-- Modelled from the spec: `qbeta` of `stats.h` in the closed form
`1 - (1 - q)^(1/β)` at `β = 1`, where it is `q`; at `q = 0` and `q = 1` this is
the value of the closed form for every `β > 0`. -/
def qbetaOne (_beta q : ℚ) : ℚ := q

/-- An environment with population `5450000`, severity `3/4` for every person,
Poisson draws given by `counts` at the current draw number, and scoring function
`score`. -/
def tableEnv (counts : Nat → Nat) (score : Int → Nat → ℚ) : Env ℚ Nat :=
  { kPopulationSize := 5450000
    bs := fun age => (age : ℚ) + 1
    generate_age := fun g => (g % 10, g + 1)
    beta_distribution := fun _ _ g => (3 / 4, g + 1)
    uniform := fun g => (g % 15, g + 1)
    poisson := fun _ g => (counts g, g + 1)
    qbeta := qbetaOne
    log_distance_probability := score
    CurrentSymptoms := windowSymptoms
    DateOfDeath := deathDate }

/-- A generator whose `CreateDeltas(t0, n)` returns `n` means equal to one. -/
def unitGenerator : GeneratorInterface ℚ :=
  { CreateDeltas := fun _ n => List.replicate n 1 }

/-! ## Notions used in the statements -/

/-- The cumulative simulated positives of day `d`:
`daily_positive[0] + ... + daily_positive[d]`. -/
def cumSim (daily_positive : List Nat) (d : Nat) : Nat :=
  (daily_positive.take (d + 1)).sum

/-- A seed of Poisson draws: one infection at the first draw of the generator,
none afterwards. -/
def seedOnce (g : Nat) : Nat := if g = 0 then 1 else 0

/-- An environment with two or fewer infections per day and an arbitrary
negative score. -/
def demoEnv : Env ℚ Nat := tableEnv (fun g => g % 3) (fun a b => -((a : ℚ) + (b : ℚ)) - 1)

/-- A simulator with one padding day and two observed days. -/
def demoSim : Simulator := Simulator.create 0 [1, 2] [5450000, 100]

/-- The contribution of day `d` to `error` as the source computes it: the guard
and the first argument of the scoring function use the `int32_t` value of the
cumulative simulated positives. -/
def scoreTerm {E G : Type} [LinearOrderedField E] (env : Env E G) (sim : Simulator)
    (daily_positive : List Nat) (d : Nat) : E :=
  if scored (toInt32 (cumSim daily_positive d)) (sim.positive_.getD d 0) then
    -env.log_distance_probability (toInt32 (cumSim daily_positive d)) (sim.positive_.getD d 0)
  else 0

/-- The state before the day loop with drawn series `[2, 1, 0]`. -/
def demoStart : DayState ℚ Nat := initialState [2, 1, 0] 0

/-- A rational stand-in for `log_distance_probability` of `stats.h`: symmetric,
zero at equal counts, negative elsewhere. At `a = 0` its size `b / 2` is below
`b * log 2`, which the logarithm of the Poisson product of the spec exceeds in
size, so an error that reaches a bound with this score reaches it with that one. -/
def gapScore (a : Int) (b : Nat) : ℚ := -|(a : ℚ) - (b : ℚ)| / 2

/-- An environment with one infection in the whole run, at the first draw, and
the score `gapScore`. -/
def seedEnv : Env ℚ Nat := tableEnv seedOnce gapScore

/-- A simulator with one observed day on which the whole population is tested
and `2^32 - 1` positives are reported. -/
def wrapSim : Simulator := Simulator.create 0 [4294967295] [5450000]

/-- The relation between the three selection variables of the `b0` loop and the
nodes pushed so far: `best` is below every mean error seen; and either nothing
was selected yet (the initial values are still in place), or `optimal_b0` is the
`b0` of a pushed node, whose mean error is `best` and whose mean deaths,
truncated, are `optimal_dead_count`. -/
def Selection {E G : Type} [LinearOrderedField E] [FloorRing E] (st : SweepState E G) : Prop :=
  (∀ node ∈ st.nodes, st.best ≤ node.meanError) ∧
  ((st.optimal_b0 = 4294967295 ∧ st.optimal_dead_count = none ∧ st.best = 10 ^ 10) ∨
    (st.best < 10 ^ 10 ∧ ∃ node ∈ st.nodes, node.b0 = st.optimal_b0 ∧
      node.meanError = st.best ∧ st.optimal_dead_count = some ⌊node.meanDeaths⌋₊))

/-- The `error` of a run of `Simulate` in which nobody is ever detected: every
day is scored with zero cumulative simulated positives. -/
def idleError {E G : Type} [LinearOrderedField E] (env : Env E G) (sim : Simulator) : E :=
  ((List.range sim.positive_.length).map (fun d =>
    if scored 0 (sim.positive_.getD d 0) then
      -env.log_distance_probability 0 (sim.positive_.getD d 0)
    else 0)).sum

/-- A simulator for `prefix_length = 2` and one observed day without tests and
without positives. -/
def calmSim : Simulator := Simulator.create 2 [0] [0]

/-- A simulator for `prefix_length = 2` and six observed days without tests,
with `4 * 10^9` positives reported on the first. -/
def floodSim : Simulator :=
  Simulator.create 2 [4000000000, 0, 0, 0, 0, 0] [0, 0, 0, 0, 0, 0]

/-! ## The scoring function, from the spec

`log_distance_probability` (`LogDistance` in the test) is declared in a header
that is not part of the sources. -/

/-- Modelled from the spec: the Poisson probability mass
`P(k; m) = e^(-m) * m^k / k!` of section 4.5 and property 4. -/
noncomputable def poissonMass (m : ℝ) (k : Nat) : ℝ :=
  Real.exp (-m) * m ^ k / (k.factorial : ℝ)

/-- Modelled from the spec: the missing `log_distance_probability` of `stats.h`,
in the realization of section 4.5: "let m = (a+b)/2; return
log P(a; m) + log P(b; m)". -/
noncomputable def log_distance (a b : Nat) : ℝ :=
  Real.log (poissonMass (((a : ℝ) + (b : ℝ)) / 2) a) +
    Real.log (poissonMass (((a : ℝ) + (b : ℝ)) / 2) b)

/-- The environment `demoEnv` with every severity draw equal to `1`, the upper
end of the range `[0, 1]` that the spec gives to the severity. -/
def peakEnv : Env ℚ Nat :=
  { demoEnv with beta_distribution := fun _ _ g => (1, g + 1) }

end Simulation

/-! # Theorems -/

namespace Simulation

/-! ## The constructor -/

theorem u32_u32_add (a b : Nat) : u32 (u32 a + b) = u32 (a + b) := by
  simp [u32, Nat.add_mod]

theorem partial_sum_go_length (acc : Nat) (xs : List Nat) :
    (partial_sum_go acc xs).length = xs.length := by
  induction xs generalizing acc with
  | nil => rfl
  | cons x xs ih => simp [partial_sum_go, ih]

theorem partial_sum_length (xs : List Nat) : (partial_sum xs).length = xs.length := by
  cases xs with
  | nil => rfl
  | cons x xs => simp [partial_sum, partial_sum_go_length]

/-- Every output of the running loop is the wrapped sum of the start value and
the inputs read so far. -/
theorem partial_sum_go_getElem? (acc : Nat) (xs : List Nat) (i : Nat) (h : i < xs.length) :
    (partial_sum_go acc xs)[i]? = some (u32 (acc + (xs.take (i + 1)).sum)) := by
  induction xs generalizing acc i with
  | nil => simp at h
  | cons x xs ih =>
    cases i with
    | zero => simp [partial_sum_go]
    | succ i =>
      have hi : i < xs.length := by simpa using h
      simp only [partial_sum_go, List.getElem?_cons_succ, List.take_succ_cons, List.sum_cons]
      rw [ih _ _ hi, u32_u32_add, Nat.add_assoc]

/-- With a leading zero, every entry of `partial_sum` is the wrapped sum of the
inputs up to its position. -/
theorem partial_sum_zero_cons_getElem? (xs : List Nat) (i : Nat) (h : i < xs.length + 1) :
    (partial_sum (0 :: xs))[i]? = some (u32 ((0 :: xs).take (i + 1)).sum) := by
  cases i with
  | zero => simp [partial_sum, u32]
  | succ i =>
    have hi : i < xs.length := by omega
    simp only [partial_sum, List.getElem?_cons_succ, List.take_succ_cons, List.sum_cons]
    rw [partial_sum_go_getElem? _ _ _ hi]

theorem create_tested_length (P : Nat) (positive tested : List Nat) :
    (Simulator.create P positive tested).tested_.length = u32 (P + 1) + tested.length := by
  simp [Simulator.create]

theorem create_positive_length (P : Nat) (positive tested : List Nat) :
    (Simulator.create P positive tested).positive_.length = u32 (P + 1) + positive.length := by
  simp [Simulator.create, partial_sum_length]

/-- Claim C3, as amended: for every `prefix_length` `P` with `P + 1 < 2^32` and
series `tested`, `positive` of length `D`, the constructor gives `tested_` and
`positive_` of length `D + P + 1`, zero at every index `i ≤ P`, with
`tested_[P+1+d] = tested[d]` and `positive_[P+1+d]` the sum
`positive[0] + ... + positive[d]` modulo `2^32`, for every `d < D`. -/
theorem create_padded (P D : Nat) (positive tested : List Nat) (hP : P + 1 < 2 ^ 32)
    (ht : tested.length = D) (hp : positive.length = D) :
    (Simulator.create P positive tested).tested_.length = D + P + 1 ∧
    (Simulator.create P positive tested).positive_.length = D + P + 1 ∧
    (∀ i, i ≤ P →
      (Simulator.create P positive tested).tested_[i]? = some 0 ∧
      (Simulator.create P positive tested).positive_[i]? = some 0) ∧
    (∀ d, d < D →
      (Simulator.create P positive tested).tested_[P + 1 + d]? = tested[d]? ∧
      (Simulator.create P positive tested).positive_[P + 1 + d]? =
        some ((positive.take (d + 1)).sum % 2 ^ 32)) := by
  have hu : u32 (P + 1) = P + 1 := Nat.mod_eq_of_lt hP
  have hrep : List.replicate (P + 1) 0 ++ positive = 0 :: (List.replicate P 0 ++ positive) := by
    simp [List.replicate_succ]
  refine ⟨by rw [create_tested_length, hu, ht]; omega,
    by rw [create_positive_length, hu, hp]; omega, ?_, ?_⟩
  · intro i hi
    constructor
    · simp only [Simulator.create, hu]
      rw [List.getElem?_append_left (by simp; omega)]
      simp [List.getElem?_replicate]; omega
    · simp only [Simulator.create, hu, hrep]
      rw [partial_sum_zero_cons_getElem? _ _ (by simp; omega)]
      rw [← hrep, List.take_append_of_le_length (by simp; omega)]
      simp [List.take_replicate, u32]
  · intro d hd
    constructor
    · simp only [Simulator.create, hu]
      rw [List.getElem?_append_right (by simp)]
      simp
    · simp only [Simulator.create, hu, hrep]
      rw [partial_sum_zero_cons_getElem? _ _ (by simp; omega)]
      rw [← hrep, List.take_append_eq_append_take]
      simp only [List.take_replicate, List.sum_append, List.sum_replicate, smul_zero,
        Nat.zero_add, List.length_replicate, u32]
      have hidx : P + 1 + d + 1 - (P + 1) = d + 1 := by omega
      rw [hidx]

/-- Witness of `create_padded` at `P = 2` and two observed days. -/
theorem create_padded_witness :
    (Simulator.create 2 [3, 4] [10, 20]).tested_.length = 2 + 2 + 1 ∧
    (Simulator.create 2 [3, 4] [10, 20]).positive_.length = 2 + 2 + 1 ∧
    (∀ i, i ≤ 2 →
      (Simulator.create 2 [3, 4] [10, 20]).tested_[i]? = some 0 ∧
      (Simulator.create 2 [3, 4] [10, 20]).positive_[i]? = some 0) ∧
    (∀ d, d < 2 →
      (Simulator.create 2 [3, 4] [10, 20]).tested_[2 + 1 + d]? = [10, 20][d]? ∧
      (Simulator.create 2 [3, 4] [10, 20]).positive_[2 + 1 + d]? =
        some (([3, 4].take (d + 1)).sum % 2 ^ 32)) :=
  create_padded 2 2 [3, 4] [10, 20] (by decide) rfl rfl

/-- Claim C3 fails at `prefix_length = 2^32 - 1`: `prefix_length + 1` wraps to
zero, no padding is added, and `tested_` is the one-day series itself. -/
theorem create_wraps :
    (Simulator.create 4294967295 [5] [7]).tested_.length ≠ 1 + 4294967295 + 1 ∧
    (Simulator.create 4294967295 [5] [7]).tested_[0]? ≠ some 0 ∧
    (Simulator.create 4294967295 [5] [7]).positive_[0]? ≠ some 0 := by
  decide

/-! ## One day of `Simulate` -/

section DayTheorems

set_option linter.unusedSectionVars false

variable {E G : Type} [LinearOrderedField E] [FloorRing E]

theorem admitOne_daily_positive (env : Env E G) (day : Nat) (st : DayState E G) :
    (admitOne env day st).result.daily_positive = st.result.daily_positive := rfl

theorem admitOne_error (env : Env E G) (day : Nat) (st : DayState E G) :
    (admitOne env day st).result.error = st.result.error := rfl

theorem admitOne_infected (env : Env E G) (day : Nat) (st : DayState E G) :
    (admitOne env day st).result.infected = st.result.infected := rfl

theorem admitOne_cumulative (env : Env E G) (day : Nat) (st : DayState E G) :
    (admitOne env day st).cumulative_positive = st.cumulative_positive := rfl

theorem admitOne_persons_length (env : Env E G) (day : Nat) (st : DayState E G) :
    (admitOne env day st).persons.length = st.persons.length + 1 := by
  simp [admitOne]

theorem admitLoop_daily_positive (env : Env E G) (day n : Nat) (st : DayState E G) :
    (admitLoop env day n st).result.daily_positive = st.result.daily_positive := by
  induction n generalizing st with
  | zero => rfl
  | succ n ih => rw [admitLoop, ih, admitOne_daily_positive]

theorem admitLoop_error (env : Env E G) (day n : Nat) (st : DayState E G) :
    (admitLoop env day n st).result.error = st.result.error := by
  induction n generalizing st with
  | zero => rfl
  | succ n ih => rw [admitLoop, ih, admitOne_error]

theorem admitLoop_infected (env : Env E G) (day n : Nat) (st : DayState E G) :
    (admitLoop env day n st).result.infected = st.result.infected := by
  induction n generalizing st with
  | zero => rfl
  | succ n ih => rw [admitLoop, ih, admitOne_infected]

theorem admitLoop_cumulative (env : Env E G) (day n : Nat) (st : DayState E G) :
    (admitLoop env day n st).cumulative_positive = st.cumulative_positive := by
  induction n generalizing st with
  | zero => rfl
  | succ n ih => rw [admitLoop, ih, admitOne_cumulative]

/-- The inner loop adds exactly `infected[day]` persons to the roster. -/
theorem admitLoop_persons_length (env : Env E G) (day n : Nat) (st : DayState E G) :
    (admitLoop env day n st).persons.length = st.persons.length + n := by
  induction n generalizing st with
  | zero => rfl
  | succ n ih => rw [admitLoop, ih, admitOne_persons_length]; omega

/-- The second group of the partition is counted by the persons at or above the
threshold. -/
theorem partition_snd_length (env : Env E G) (day : Nat) (threshold : E)
    (persons : List (Person E)) :
    (persons.partition (undetected env day threshold)).2.length =
      persons.countP (fun ca => decide (threshold ≤ env.CurrentSymptoms ca day)) := by
  rw [List.partition_eq_filter_filter, List.countP_eq_length_filter]
  show (persons.filter (not ∘ undetected env day threshold)).length = _
  congr 2
  funext ca
  by_cases h : env.CurrentSymptoms ca day < threshold
  · simp [undetected, h, not_le.mpr h]
  · simp [undetected, h, not_lt.mp h]

theorem partition_fst (env : Env E G) (day : Nat) (threshold : E)
    (persons : List (Person E)) :
    (persons.partition (undetected env day threshold)).1 =
      persons.filter (fun ca => decide (env.CurrentSymptoms ca day < threshold)) := by
  rw [List.partition_eq_filter_filter]
  rfl

theorem partition_lengths (env : Env E G) (day : Nat) (threshold : E)
    (persons : List (Person E)) :
    (persons.partition (undetected env day threshold)).1.length +
      (persons.partition (undetected env day threshold)).2.length = persons.length := by
  rw [List.partition_eq_filter_filter]
  show (persons.filter (undetected env day threshold)).length +
    (persons.filter (not ∘ undetected env day threshold)).length = persons.length
  induction persons with
  | nil => rfl
  | cons ca rest ih =>
    by_cases h : undetected env day threshold ca = true
    · simp only [List.filter_cons, h, Function.comp_apply, Bool.not_true, List.length_cons] at ih ⊢
      simp only [if_true, Bool.false_eq_true, if_false, List.length_cons]
      omega
    · simp only [Bool.not_eq_true] at h
      simp only [List.filter_cons, h, Function.comp_apply, Bool.not_false, List.length_cons] at ih ⊢
      simp only [if_true, Bool.false_eq_true, if_false, List.length_cons]
      omega

/-- The outcome of `detect` when both vectors have an entry for the day. -/
theorem detect_eq (env : Env E G) (sim : Simulator) (beta0 : E) (day : Nat)
    (st : DayState E G) (tested positive : Nat)
    (ht : sim.tested_[day]? = some tested) (hp : sim.positive_[day]? = some positive) :
    detect env sim beta0 day st = .ok
      { persons := (st.persons.partition
          (undetected env day (env.qbeta beta0 (quantile env tested)))).1
        result :=
          { st.result with
            daily_positive := st.result.daily_positive ++ [(st.persons.partition
              (undetected env day (env.qbeta beta0 (quantile env tested)))).2.length]
            error :=
              if scored (toInt32 (st.cumulative_positive + ((st.persons.partition
                  (undetected env day (env.qbeta beta0 (quantile env tested)))).2.length : Int)))
                  positive then
                st.result.error - env.log_distance_probability
                  (toInt32 (st.cumulative_positive + ((st.persons.partition
                    (undetected env day (env.qbeta beta0 (quantile env tested)))).2.length : Int)))
                  positive
              else st.result.error }
        cumulative_positive := toInt32 (st.cumulative_positive + ((st.persons.partition
          (undetected env day (env.qbeta beta0 (quantile env tested)))).2.length : Int))
        g := st.g } := by
  simp only [detect, ht, hp]

/-- Claim C1: on a day `d` that has entries in `infected`, `tested_` and
`positive_`, the day's step succeeds; with the roster after admission and
`tau = qbeta(beta0, q_d)`, the value appended to `daily_positive` is the number
of roster members with `CurrentSymptoms(d) >= tau`, the roster carried on is
exactly the members with `CurrentSymptoms(d) < tau`, and the new roster size is
the old one minus that count, which does not exceed the old size. -/
theorem dayStep_partition (env : Env E G) (sim : Simulator) (beta0 : E) (infected : List Nat)
    (day : Nat) (st : DayState E G) (count tested positive : Nat)
    (hi : infected[day]? = some count) (ht : sim.tested_[day]? = some tested)
    (hp : sim.positive_[day]? = some positive) :
    ∃ next, dayStep env sim beta0 infected day st = .ok next ∧
      next.result.daily_positive = st.result.daily_positive ++
        [(admitLoop env day count st).persons.countP
          (fun ca => decide (env.qbeta beta0 (quantile env tested) ≤ env.CurrentSymptoms ca day))] ∧
      next.persons = (admitLoop env day count st).persons.filter
        (fun ca => decide (env.CurrentSymptoms ca day < env.qbeta beta0 (quantile env tested))) ∧
      (admitLoop env day count st).persons.countP
        (fun ca => decide (env.qbeta beta0 (quantile env tested) ≤ env.CurrentSymptoms ca day)) ≤
          (admitLoop env day count st).persons.length ∧
      next.persons.length = (admitLoop env day count st).persons.length -
        (admitLoop env day count st).persons.countP
          (fun ca => decide (env.qbeta beta0 (quantile env tested) ≤ env.CurrentSymptoms ca day)) := by
  refine ⟨_, by rw [dayStep, hi]; exact detect_eq env sim beta0 day _ tested positive ht hp,
    ?_, ?_, ?_, ?_⟩
  · simp only [admitLoop_daily_positive, partition_snd_length]
  · exact partition_fst env day _ _
  · exact List.countP_le_length _
  · have h := partition_lengths env day (env.qbeta beta0 (quantile env tested))
      (admitLoop env day count st).persons
    rw [partition_snd_length] at h
    simp only
    omega

end DayTheorems

/-! ## The day loop -/

section LoopTheorems

set_option linter.unusedSectionVars false

variable {E G : Type} [LinearOrderedField E] [FloorRing E]

theorem toInt32_add (a b : Int) : toInt32 (toInt32 a + b) = toInt32 (a + b) := by
  simp only [toInt32]
  omega

theorem toInt32_zero : toInt32 0 = 0 := by decide

/-- One day, from a state whose `cumulative_positive` is the `int32_t` value of
the sum of `daily_positive`. -/
theorem dayStep_spec (env : Env E G) (sim : Simulator) (beta0 : E) (infected : List Nat)
    (day : Nat) (st : DayState E G) (count tested positive : Nat)
    (hi : infected[day]? = some count) (ht : sim.tested_[day]? = some tested)
    (hp : sim.positive_[day]? = some positive)
    (hcum : st.cumulative_positive = toInt32 (st.result.daily_positive.sum : Nat)) :
    ∃ next c, dayStep env sim beta0 infected day st = .ok next ∧
      next.result.daily_positive = st.result.daily_positive ++ [c] ∧
      next.result.infected = st.result.infected ∧
      next.cumulative_positive = toInt32 ((st.result.daily_positive.sum + c : Nat) : Int) ∧
      next.persons.length + c = st.persons.length + count ∧
      next.result.error = st.result.error +
        (if scored (toInt32 ((st.result.daily_positive.sum + c : Nat) : Int)) positive then
          -env.log_distance_probability
            (toInt32 ((st.result.daily_positive.sum + c : Nat) : Int)) positive
        else 0) := by
  have hcum' : ∀ c : Nat, toInt32 (st.cumulative_positive + (c : Int)) =
      toInt32 ((st.result.daily_positive.sum + c : Nat) : Int) := by
    intro c
    rw [hcum, toInt32_add, Nat.cast_add]
  refine ⟨_, ((admitLoop env day count st).persons.partition
      (undetected env day (env.qbeta beta0 (quantile env tested)))).2.length,
    by rw [dayStep, hi]; exact detect_eq env sim beta0 day _ tested positive ht hp,
    ?_, ?_, ?_, ?_, ?_⟩
  · simp only [admitLoop_daily_positive]
  · simp only [admitLoop_infected]
  · simp only [admitLoop_cumulative, hcum']
  · have h := partition_lengths env day (env.qbeta beta0 (quantile env tested))
      (admitLoop env day count st).persons
    rw [admitLoop_persons_length] at h
    exact h
  · simp only [admitLoop_cumulative, admitLoop_error, hcum']
    split
    · rw [sub_eq_add_neg]
    · rw [add_zero]

end LoopTheorems

section LoopSpec

set_option linter.unusedSectionVars false

variable {E G : Type} [LinearOrderedField E] [FloorRing E]

theorem cumSim_append_singleton (dp tail : List Nat) (c : Nat) :
    cumSim (dp ++ [c] ++ tail) dp.length = dp.sum + c := by
  have h : dp.length + 1 = (dp ++ [c]).length := by simp
  rw [cumSim, h, List.take_left]
  simp

/-- The day loop from day `day` for `n` more days: it returns, appends `n`
counts to `daily_positive`, keeps `cumulative_positive` equal to the `int32_t`
value of their sum, conserves the persons (roster plus detected equals
admitted), and adds the score terms of the days it ran. -/
theorem dayLoop_spec (env : Env E G) (sim : Simulator) (beta0 : E) (infected : List Nat)
    (n day : Nat) (st : DayState E G)
    (hi : day + n ≤ infected.length) (ht : day + n ≤ sim.tested_.length)
    (hp : day + n ≤ sim.positive_.length)
    (hlen : st.result.daily_positive.length = day)
    (hcum : st.cumulative_positive = toInt32 (st.result.daily_positive.sum : Nat)) :
    ∃ final tail, dayLoop env sim beta0 infected n day st = .ok final ∧
      final.result.daily_positive = st.result.daily_positive ++ tail ∧
      tail.length = n ∧
      final.result.infected = st.result.infected ∧
      final.cumulative_positive = toInt32 (final.result.daily_positive.sum : Nat) ∧
      final.persons.length + final.result.daily_positive.sum =
        st.persons.length + st.result.daily_positive.sum + ((infected.drop day).take n).sum ∧
      final.result.error = st.result.error +
        ((List.range' day n).map (scoreTerm env sim final.result.daily_positive)).sum := by
  induction n generalizing day st with
  | zero =>
    exact ⟨st, [], rfl, by simp, rfl, rfl, hcum, by simp, by simp⟩
  | succ n ih =>
    have hdi : day < infected.length := by omega
    have hdt : day < sim.tested_.length := by omega
    have hdp : day < sim.positive_.length := by omega
    obtain ⟨next, c, hstep, hdpn, hinf, hcumn, hpers, herr⟩ :=
      dayStep_spec env sim beta0 infected day st infected[day] sim.tested_[day]
        sim.positive_[day] (List.getElem?_eq_getElem hdi) (List.getElem?_eq_getElem hdt)
        (List.getElem?_eq_getElem hdp) hcum
    have hlenn : next.result.daily_positive.length = day + 1 := by
      rw [hdpn, List.length_append, hlen]; rfl
    have hsumn : next.result.daily_positive.sum = st.result.daily_positive.sum + c := by
      rw [hdpn]; simp
    obtain ⟨final, tail, hloop, hdpf, htail, hinff, hcumf, hpersf, herrf⟩ :=
      ih (day + 1) next (by omega) (by omega) (by omega) hlenn (by rw [hcumn, hsumn])
    have hdpf' : final.result.daily_positive = st.result.daily_positive ++ [c] ++ tail := by
      rw [hdpf, hdpn]
    refine ⟨final, c :: tail, ?_, ?_, ?_, ?_, hcumf, ?_, ?_⟩
    · rw [dayLoop, hstep]; exact hloop
    · rw [hdpf']; simp
    · simp [htail]
    · rw [hinff, hinf]
    · rw [hpersf, hsumn, List.drop_eq_getElem_cons hdi, List.take_succ_cons, List.sum_cons]
      omega
    · have hc : cumSim final.result.daily_positive day = st.result.daily_positive.sum + c := by
        rw [hdpf', ← hlen]; exact cumSim_append_singleton _ _ _
      have hterm : scoreTerm env sim final.result.daily_positive day =
          (if scored (toInt32 ((st.result.daily_positive.sum + c : Nat) : Int))
              sim.positive_[day] then
            -env.log_distance_probability
              (toInt32 ((st.result.daily_positive.sum + c : Nat) : Int)) sim.positive_[day]
          else 0) := by
        simp only [scoreTerm, hc, List.getD_eq_getElem?_getD, List.getElem?_eq_getElem hdp,
          Option.getD_some]
      rw [herrf, herr, List.range'_succ, List.map_cons, List.sum_cons, add_assoc, hterm]

end LoopSpec

section SimulateTheorems

set_option linter.unusedSectionVars false

variable {E G : Type} [LinearOrderedField E] [FloorRing E]

theorem drawInfected_length (env : Env E G) (means : List E) (g : G) :
    (drawInfected env means g).1.length = means.length := by
  induction means generalizing g with
  | nil => rfl
  | cons mean rest ih => simp [drawInfected, ih]

theorem GenerateInfected_length (env : Env E G) (sim : Simulator)
    (generator : GeneratorInterface E) (g : G) :
    (GenerateInfected env sim generator g).1.length =
      (generator.CreateDeltas sim.t0_ (sim.tested_.length + kExtraDays)).length :=
  drawInfected_length env _ g

theorem sum_take_le_sum (xs : List Nat) (n : Nat) : (xs.take n).sum ≤ xs.sum := by
  conv_rhs => rw [← List.take_append_drop n xs, List.sum_append]
  exact Nat.le_add_right _ _

/-- A sum over the elements that pass a test is the sum of the terms with the
others replaced by zero. -/
theorem sum_map_filter_eq (p : Nat → Bool) (f : Nat → E) (xs : List Nat) :
    ((xs.filter p).map f).sum = (xs.map (fun d => if p d then f d else 0)).sum := by
  induction xs with
  | nil => rfl
  | cons x xs ih =>
    by_cases h : p x = true
    · simp [List.filter_cons, h, ih]
    · simp [List.filter_cons, h, ih]

/-- The guard of the score, on the `int32_t` value of a count `c`, tests the sum
`c + positive` modulo `2^32`. -/
theorem scored_toInt32 (c positive : Nat) :
    scored (toInt32 (c : Int)) positive = decide ((c + positive) % 2 ^ 32 ≠ 0) := by
  have h : toUInt32 (toInt32 (c : Int)) = c % 2 ^ 32 := by
    simp only [toUInt32, toInt32]
    omega
  simp only [scored, u32, h, Nat.mod_add_mod]
  rw [decide_eq_decide]
  exact Nat.pos_iff_ne_zero

/-- What a call of `Simulate` returns when `tested_` and the drawn series cover
the days of `positive_`. -/
theorem Simulate_spec (env : Env E G) (sim : Simulator) (beta0 : E)
    (generator : GeneratorInterface E) (g : G)
    (ht : sim.positive_.length ≤ sim.tested_.length)
    (hg : sim.positive_.length ≤
      (generator.CreateDeltas sim.t0_ (sim.tested_.length + kExtraDays)).length) :
    ∃ r g1, Simulate env sim beta0 generator g = .ok (r, g1) ∧
      r.infected = (GenerateInfected env sim generator g).1 ∧
      r.daily_positive.length = sim.positive_.length ∧
      (∃ roster : Nat, roster + r.daily_positive.sum =
        (r.infected.take sim.positive_.length).sum) ∧
      r.error = ((List.range sim.positive_.length).map
        (scoreTerm env sim r.daily_positive)).sum := by
  obtain ⟨final, tail, hloop, hdp, htail, hinf, _, hpers, herr⟩ :=
    dayLoop_spec env sim beta0 (GenerateInfected env sim generator g).1
      sim.positive_.length 0
      (initialState (GenerateInfected env sim generator g).1
        (GenerateInfected env sim generator g).2)
      (by rw [GenerateInfected_length]; omega) (by omega) (by omega) rfl
      (by simp [initialState, toInt32_zero])
  refine ⟨final.result, final.g, ?_, hinf, ?_, ⟨final.persons.length, ?_⟩, ?_⟩
  · simp only [Simulate, hloop]
  · rw [hdp]; simpa [initialState] using htail
  · rw [hpers, hinf]; simp [initialState]
  · rw [herr, List.range_eq_range']; simp [initialState]

/-- Claim C2, as amended: when `tested_` and the drawn series cover the days of
`positive_`, `Simulate` returns, and its `error` is the sum, over exactly the
days `d` of the padded horizon on which `(cum_sim_positive(d) + cum_positive[d])
mod 2^32` is not zero, of `-log_distance(c, cum_positive[d])` with `c` the
`int32_t` value of `cum_sim_positive(d)`. -/
theorem Simulate_error (env : Env E G) (sim : Simulator) (beta0 : E)
    (generator : GeneratorInterface E) (g : G)
    (ht : sim.positive_.length ≤ sim.tested_.length)
    (hg : sim.positive_.length ≤
      (generator.CreateDeltas sim.t0_ (sim.tested_.length + kExtraDays)).length) :
    ∃ r g1, Simulate env sim beta0 generator g = .ok (r, g1) ∧
      r.error = (((List.range sim.positive_.length).filter
          (fun d => decide ((cumSim r.daily_positive d + sim.positive_.getD d 0) % 2 ^ 32 ≠ 0))).map
        (fun d => -env.log_distance_probability (toInt32 (cumSim r.daily_positive d))
          (sim.positive_.getD d 0))).sum := by
  obtain ⟨r, g1, hsim, _, _, _, herr⟩ := Simulate_spec env sim beta0 generator g ht hg
  refine ⟨r, g1, hsim, ?_⟩
  have hterm : scoreTerm env sim r.daily_positive = fun d =>
      if decide ((cumSim r.daily_positive d + sim.positive_.getD d 0) % 2 ^ 32 ≠ 0) then
        -env.log_distance_probability (toInt32 (cumSim r.daily_positive d))
          (sim.positive_.getD d 0)
      else 0 := by
    funext d
    simp only [scoreTerm, scored_toInt32]
  rw [herr, sum_map_filter_eq, hterm]

/-- Claim C8: when `tested_` and the drawn series cover the days of `positive_`,
`Simulate` returns one count per day of the padded horizon, and their sum is at
most the sum of `infected` over the same days, hence at most the sum of the
whole `infected` series. -/
theorem Simulate_detected_le_infected (env : Env E G) (sim : Simulator) (beta0 : E)
    (generator : GeneratorInterface E) (g : G)
    (ht : sim.positive_.length ≤ sim.tested_.length)
    (hg : sim.positive_.length ≤
      (generator.CreateDeltas sim.t0_ (sim.tested_.length + kExtraDays)).length) :
    ∃ r g1, Simulate env sim beta0 generator g = .ok (r, g1) ∧
      r.daily_positive.length = sim.positive_.length ∧
      r.daily_positive.sum ≤ (r.infected.take sim.positive_.length).sum ∧
      (r.infected.take sim.positive_.length).sum ≤ r.infected.sum := by
  obtain ⟨r, g1, hsim, _, hlen, ⟨roster, hroster⟩, _⟩ :=
    Simulate_spec env sim beta0 generator g ht hg
  exact ⟨r, g1, hsim, hlen, by omega, sum_take_le_sum _ _⟩

end SimulateTheorems

/-! ## Days without tests -/

section QuietTheorems

set_option linter.unusedSectionVars false

variable {E G : Type} [LinearOrderedField E] [FloorRing E]

theorem quantile_zero (env : Env E G) : quantile env 0 = 1 := by
  simp [quantile]

theorem scored_zero_zero : scored 0 0 = false := by decide

theorem partition_all_undetected (env : Env E G) (day : Nat) (threshold : E)
    (persons : List (Person E))
    (h : ∀ p ∈ persons, env.CurrentSymptoms p day < threshold) :
    persons.partition (undetected env day threshold) = (persons, []) := by
  rw [List.partition_eq_filter_filter]
  have h1 : persons.filter (undetected env day threshold) = persons :=
    List.filter_eq_self.mpr (fun p hp => by simpa [undetected] using h p hp)
  have h2 : persons.filter (not ∘ undetected env day threshold) = [] :=
    List.filter_eq_nil_iff.mpr (fun p hp => by simpa [undetected] using h p hp)
  rw [h1, h2]

/-- On a day with no tests and no observed positives, when nobody on the roster
reaches `qbeta(beta0, 1)`, nobody is detected and nothing is scored. -/
theorem detect_quiet (env : Env E G) (sim : Simulator) (beta0 : E) (day : Nat)
    (st : DayState E G)
    (ht : sim.tested_[day]? = some 0) (hp : sim.positive_[day]? = some 0)
    (hroster : ∀ p ∈ st.persons, env.CurrentSymptoms p day < env.qbeta beta0 1)
    (hcum : st.cumulative_positive = 0) :
    ∃ next, detect env sim beta0 day st = .ok next ∧
      next.persons = st.persons ∧
      next.result.daily_positive = st.result.daily_positive ++ [0] ∧
      next.cumulative_positive = 0 ∧
      next.result.error = st.result.error := by
  have hpart := partition_all_undetected env day (env.qbeta beta0 (quantile env 0)) st.persons
    (by rw [quantile_zero]; exact hroster)
  refine ⟨_, detect_eq env sim beta0 day st 0 0 ht hp, ?_, ?_, ?_, ?_⟩
  · simp only [hpart]
  · simp only [hpart, List.length_nil]
  · simp only [hpart, hcum, List.length_nil, Nat.cast_zero, add_zero, toInt32_zero]
  · simp only [hpart, hcum, List.length_nil, Nat.cast_zero, add_zero, toInt32_zero,
      scored_zero_zero, Bool.false_eq_true, if_false]

theorem admitOne_symptoms (env : Env E G) (day : Nat) (st : DayState E G) (bound : E)
    (hdraw : ∀ a b g, (env.beta_distribution a b g).1 < bound)
    (hroster : ∀ p ∈ st.persons, p.symptoms < bound) :
    ∀ p ∈ (admitOne env day st).persons, p.symptoms < bound := by
  intro p hp
  simp only [admitOne, List.mem_append, List.mem_singleton] at hp
  rcases hp with hp | hp
  · exact hroster p hp
  · rw [hp]; exact hdraw _ _ _

theorem admitLoop_symptoms (env : Env E G) (day n : Nat) (st : DayState E G) (bound : E)
    (hdraw : ∀ a b g, (env.beta_distribution a b g).1 < bound)
    (hroster : ∀ p ∈ st.persons, p.symptoms < bound) :
    ∀ p ∈ (admitLoop env day n st).persons, p.symptoms < bound := by
  induction n generalizing st with
  | zero => exact hroster
  | succ n ih => exact ih _ (admitOne_symptoms env day st bound hdraw hroster)

/-- The day loop over days without tests and without observed positives: every
count appended is zero and `error` does not change. -/
theorem dayLoop_quiet (env : Env E G) (sim : Simulator) (beta0 : E) (infected : List Nat)
    (n day : Nat) (st : DayState E G)
    (hq : env.qbeta beta0 1 = 1)
    (hdraw : ∀ a b g, (env.beta_distribution a b g).1 < 1)
    (hcur : ∀ (p : Person E) d, p.symptoms < 1 → env.CurrentSymptoms p d < 1)
    (hi : day + n ≤ infected.length)
    (ht : ∀ d, d < day + n → sim.tested_[d]? = some 0)
    (hp : ∀ d, d < day + n → sim.positive_[d]? = some 0)
    (hroster : ∀ p ∈ st.persons, p.symptoms < 1)
    (hcum : st.cumulative_positive = 0) :
    ∃ final, dayLoop env sim beta0 infected n day st = .ok final ∧
      final.result.daily_positive = st.result.daily_positive ++ List.replicate n 0 ∧
      final.result.error = st.result.error := by
  induction n generalizing day st with
  | zero => exact ⟨st, rfl, by simp, rfl⟩
  | succ n ih =>
    have hdi : day < infected.length := by omega
    have hmid := admitLoop_symptoms env day infected[day] st 1 hdraw hroster
    obtain ⟨next, hdet, hpers, hdp, hcumn, herr⟩ :=
      detect_quiet env sim beta0 day (admitLoop env day infected[day] st)
        (ht day (by omega)) (hp day (by omega))
        (fun p hp => by rw [hq]; exact hcur p day (hmid p hp))
        (by rw [admitLoop_cumulative]; exact hcum)
    obtain ⟨final, hloop, hdpf, herrf⟩ :=
      ih (day + 1) next (by omega) (fun d hd => ht d (by omega)) (fun d hd => hp d (by omega))
        (by rw [hpers]; exact hmid) hcumn
    refine ⟨final, ?_, ?_, ?_⟩
    · rw [dayLoop, dayStep, List.getElem?_eq_getElem hdi]
      simp only [hdet]
      exact hloop
    · rw [hdpf, hdp, admitLoop_daily_positive, List.replicate_succ, List.append_assoc]
      rfl
    · rw [herrf, herr, admitLoop_error]

theorem partial_sum_go_zeros (n : Nat) :
    partial_sum_go 0 (List.replicate n 0) = List.replicate n 0 := by
  induction n with
  | zero => rfl
  | succ n ih =>
    rw [List.replicate_succ, partial_sum_go]
    have h : u32 (0 + 0) = 0 := by decide
    rw [h, ih]

theorem partial_sum_zeros (n : Nat) :
    partial_sum (List.replicate n 0) = List.replicate n 0 := by
  cases n with
  | zero => rfl
  | succ n => rw [List.replicate_succ, partial_sum, partial_sum_go_zeros]

/-- Claim C7, as amended: for an observation series of `D` days with no tests
and no positives, any `prefix_length`, a generator that returns as many means as
asked, a `beta0` with `qbeta(beta0, 1) = 1`, and random draws in which every
severity is strictly below `1` (`CurrentSymptoms` staying below `1` for such a
severity), `Simulate` returns `daily_positive[d] = 0` on every day of the padded
horizon and `error = 0`. -/
theorem Simulate_no_tests (env : Env E G) (generator : GeneratorInterface E) (beta0 : E)
    (g : G) (P D : Nat)
    (hgen : ∀ t n, (generator.CreateDeltas t n).length = n)
    (hq : env.qbeta beta0 1 = 1)
    (hdraw : ∀ a b g, (env.beta_distribution a b g).1 < 1)
    (hcur : ∀ (p : Person E) d, p.symptoms < 1 → env.CurrentSymptoms p d < 1) :
    ∃ r g1,
      Simulate env (Simulator.create P (List.replicate D 0) (List.replicate D 0)) beta0
        generator g = .ok (r, g1) ∧
      r.daily_positive = List.replicate
        (Simulator.create P (List.replicate D 0) (List.replicate D 0)).positive_.length 0 ∧
      r.error = 0 := by
  have hpos : (Simulator.create P (List.replicate D 0) (List.replicate D 0)).positive_ =
      List.replicate (u32 (P + 1) + D) 0 := by
    simp only [Simulator.create, List.append_replicate_replicate, partial_sum_zeros]
  have htest : (Simulator.create P (List.replicate D 0) (List.replicate D 0)).tested_ =
      List.replicate (u32 (P + 1) + D) 0 := by
    simp only [Simulator.create, List.append_replicate_replicate]
  obtain ⟨final, hloop, hdp, herr⟩ :=
    dayLoop_quiet env (Simulator.create P (List.replicate D 0) (List.replicate D 0)) beta0
      (GenerateInfected env (Simulator.create P (List.replicate D 0) (List.replicate D 0))
        generator g).1
      (Simulator.create P (List.replicate D 0) (List.replicate D 0)).positive_.length 0
      (initialState
        (GenerateInfected env (Simulator.create P (List.replicate D 0) (List.replicate D 0))
          generator g).1
        (GenerateInfected env (Simulator.create P (List.replicate D 0) (List.replicate D 0))
          generator g).2)
      hq hdraw hcur
      (by rw [GenerateInfected_length, hgen, hpos, htest]; simp)
      (fun d hd => by
        rw [hpos] at hd; rw [htest]
        simp only [List.length_replicate, Nat.zero_add] at hd
        simp [List.getElem?_replicate, hd])
      (fun d hd => by
        rw [hpos] at hd ⊢
        simp only [List.length_replicate, Nat.zero_add] at hd
        simp [List.getElem?_replicate, hd])
      (by simp [initialState]) rfl
  refine ⟨final.result, final.g, ?_, ?_, ?_⟩
  · simp only [Simulate, hloop]
  · rw [hdp]; simp [initialState]
  · rw [herr]; simp [initialState]

end QuietTheorems

/-! ## The testing quantile and the bounds of the reads -/

section BoundsTheorems

set_option linter.unusedSectionVars false

variable {E G : Type} [LinearOrderedField E] [FloorRing E]

/-- Claim C6, as amended: the quantile passed to `qbeta` is
`1 - tested_[d] / kPopulationSize` itself, with no clamp. For a positive
population size it is at most `1`, and it is nonnegative exactly when
`tested_[d] <= kPopulationSize`; whatever its value, the day's detection runs
with the threshold `qbeta(beta0, 1 - tested_[d] / kPopulationSize)`. -/
theorem quantile_unclamped (env : Env E G) (sim : Simulator) (beta0 : E) (day : Nat)
    (st : DayState E G) (tested positive : Nat) (hk : 0 < env.kPopulationSize)
    (ht : sim.tested_[day]? = some tested) (hp : sim.positive_[day]? = some positive) :
    quantile env tested ≤ 1 ∧
    (0 ≤ quantile env tested ↔ (tested : E) ≤ env.kPopulationSize) ∧
    ∃ next, detect env sim beta0 day st = .ok next ∧
      next.persons = st.persons.filter (fun ca =>
        decide (env.CurrentSymptoms ca day <
          env.qbeta beta0 (1 - (tested : E) / env.kPopulationSize))) := by
  refine ⟨?_, ?_, _, detect_eq env sim beta0 day st tested positive ht hp,
    partition_fst env day _ _⟩
  · have h : 0 ≤ (tested : E) / env.kPopulationSize :=
      div_nonneg (Nat.cast_nonneg tested) hk.le
    simp only [quantile]
    linarith
  · simp only [quantile, sub_nonneg]
    exact div_le_one hk

/-- Claim C10, as amended: for series of equal length `D`, any `prefix_length`
`P` and a generator that returns as many means as asked, `Simulate` returns
without a failed assertion or a read out of range; `tested_` and `positive_`
have `D + ((P + 1) mod 2^32)` entries, `infected` has `kExtraDays` more, and the
day loop runs once per entry of `positive_`. When `P + 1 < 2^32` these lengths
are `D + P + 1` and `D + P + 1 + kExtraDays`. -/
theorem Simulate_in_bounds (env : Env E G) (generator : GeneratorInterface E) (beta0 : E)
    (g : G) (P D : Nat) (positive tested : List Nat)
    (ht : tested.length = D) (hp : positive.length = D)
    (hgen : ∀ t n, (generator.CreateDeltas t n).length = n) :
    ∃ r g1, Simulate env (Simulator.create P positive tested) beta0 generator g = .ok (r, g1) ∧
      (Simulator.create P positive tested).tested_.length = D + u32 (P + 1) ∧
      (Simulator.create P positive tested).positive_.length = D + u32 (P + 1) ∧
      r.infected.length = D + u32 (P + 1) + kExtraDays ∧
      r.daily_positive.length = (Simulator.create P positive tested).positive_.length ∧
      (P + 1 < 2 ^ 32 →
        (Simulator.create P positive tested).positive_.length = D + P + 1 ∧
        r.infected.length = D + P + 1 + kExtraDays) := by
  have hlt : (Simulator.create P positive tested).tested_.length = D + u32 (P + 1) := by
    rw [create_tested_length, ht, Nat.add_comm]
  have hlp : (Simulator.create P positive tested).positive_.length = D + u32 (P + 1) := by
    rw [create_positive_length, hp, Nat.add_comm]
  obtain ⟨r, g1, hsim, hinf, hlen, _, _⟩ :=
    Simulate_spec env (Simulator.create P positive tested) beta0 generator g
      (by rw [hlt, hlp]) (by rw [hgen, hlt, hlp]; omega)
  have hil : r.infected.length = D + u32 (P + 1) + kExtraDays := by
    rw [hinf, GenerateInfected_length, hgen, hlt]
  refine ⟨r, g1, hsim, hlt, hlp, hil, hlen, ?_⟩
  intro hP
  have hu : u32 (P + 1) = P + 1 := Nat.mod_eq_of_lt hP
  rw [hlp, hil, hu]
  exact ⟨rfl, rfl⟩

end BoundsTheorems

/-! ## Concrete runs of one day and of `Simulate` -/

/-- Witness of `dayStep_partition`: day 0 of the sample simulator with two
infections drawn. -/
theorem dayStep_partition_witness :
    ∃ next, dayStep demoEnv demoSim 1 [2, 1, 0] 0 demoStart = .ok next ∧
      next.result.daily_positive = demoStart.result.daily_positive ++
        [(admitLoop demoEnv 0 2 demoStart).persons.countP
          (fun ca => decide (demoEnv.qbeta 1 (quantile demoEnv 0) ≤ demoEnv.CurrentSymptoms ca 0))] ∧
      next.persons = (admitLoop demoEnv 0 2 demoStart).persons.filter
        (fun ca => decide (demoEnv.CurrentSymptoms ca 0 < demoEnv.qbeta 1 (quantile demoEnv 0))) ∧
      (admitLoop demoEnv 0 2 demoStart).persons.countP
        (fun ca => decide (demoEnv.qbeta 1 (quantile demoEnv 0) ≤ demoEnv.CurrentSymptoms ca 0)) ≤
          (admitLoop demoEnv 0 2 demoStart).persons.length ∧
      next.persons.length = (admitLoop demoEnv 0 2 demoStart).persons.length -
        (admitLoop demoEnv 0 2 demoStart).persons.countP
          (fun ca => decide (demoEnv.qbeta 1 (quantile demoEnv 0) ≤ demoEnv.CurrentSymptoms ca 0)) :=
  dayStep_partition demoEnv demoSim 1 [2, 1, 0] 0 demoStart 2 0 0 rfl rfl rfl

/-- Witness of `quantile_unclamped`: day 1 of the sample simulator, where the
whole population is tested. -/
theorem quantile_unclamped_witness :
    quantile demoEnv 5450000 ≤ 1 ∧
    (0 ≤ quantile demoEnv 5450000 ↔ ((5450000 : Nat) : ℚ) ≤ demoEnv.kPopulationSize) ∧
    ∃ next, detect demoEnv demoSim 1 1 demoStart = .ok next ∧
      next.persons = demoStart.persons.filter (fun ca =>
        decide (demoEnv.CurrentSymptoms ca 1 <
          demoEnv.qbeta 1 (1 - ((5450000 : Nat) : ℚ) / demoEnv.kPopulationSize))) :=
  quantile_unclamped demoEnv demoSim 1 1 demoStart 5450000 1
    (by norm_num [demoEnv, tableEnv]) rfl rfl

/-- Claim C6 fails when more tests than inhabitants are recorded: with
`kPopulationSize = 5450000` and `tested_[d] = 6000000` the quantile given to
`qbeta` is `-11/109`, below zero. -/
theorem quantile_negative :
    demoEnv.kPopulationSize = 5450000 ∧
    quantile demoEnv 6000000 = -11 / 109 ∧
    ¬ (0 ≤ quantile demoEnv 6000000) := by
  refine ⟨rfl, ?_, ?_⟩ <;> norm_num [quantile, demoEnv, tableEnv]

theorem demoEnv_qbeta_one : demoEnv.qbeta 1 1 = 1 := rfl

theorem demoEnv_draw_lt_one (a b : ℚ) (g : Nat) : (demoEnv.beta_distribution a b g).1 < 1 := by
  norm_num [demoEnv, tableEnv]

theorem demoEnv_symptoms_lt_one (p : Person ℚ) (d : Nat) (h : p.symptoms < 1) :
    demoEnv.CurrentSymptoms p d < 1 := by
  simp only [demoEnv, tableEnv, windowSymptoms]
  split
  · exact h
  · exact zero_lt_one

theorem unitGenerator_length (t n : Nat) : (unitGenerator.CreateDeltas t n).length = n := by
  simp [unitGenerator]

theorem demoSim_tested_covers : demoSim.positive_.length ≤ demoSim.tested_.length := by
  decide

theorem demoSim_drawn_covers : demoSim.positive_.length ≤
    (unitGenerator.CreateDeltas demoSim.t0_ (demoSim.tested_.length + kExtraDays)).length := by
  rw [unitGenerator_length]
  decide

/-- Witness of `Simulate_error`: the sample simulator and environment. -/
theorem Simulate_error_witness :
    ∃ r g1, Simulate demoEnv demoSim 1 unitGenerator 0 = .ok (r, g1) ∧
      r.error = (((List.range demoSim.positive_.length).filter
          (fun d => decide ((cumSim r.daily_positive d + demoSim.positive_.getD d 0) % 2 ^ 32 ≠ 0))).map
        (fun d => -demoEnv.log_distance_probability (toInt32 (cumSim r.daily_positive d))
          (demoSim.positive_.getD d 0))).sum :=
  Simulate_error demoEnv demoSim 1 unitGenerator 0 demoSim_tested_covers demoSim_drawn_covers

/-- Claim C2 fails when the 32-bit sum of the guard wraps: with `2^32 - 1`
cumulative observed positives and one simulated positive on day 1, the code
returns `error = 0`, while the sum of the claim has the term of day 1, because
`1 + 4294967295 > 0`, and is not zero. -/
theorem guard_wraps :
    wrapSim.positive_ = [0, 4294967295] ∧
    (Simulate seedEnv wrapSim 1 unitGenerator 0).toOption.map
      (fun out => (out.1.daily_positive, out.1.error)) = some ([0, 1], 0) ∧
    (((List.range 2).filter
        (fun d => decide (0 < cumSim [0, 1] d + [0, 4294967295].getD d 0))).map
      (fun d => -seedEnv.log_distance_probability (cumSim [0, 1] d)
        ([0, 4294967295].getD d 0))).sum = 2147483647 := by
  decide!

/-- Witness of `Simulate_no_tests`: thirty days without tests, `P = 2`. -/
theorem Simulate_no_tests_witness :
    ∃ r g1,
      Simulate demoEnv (Simulator.create 2 (List.replicate 30 0) (List.replicate 30 0)) 100
        unitGenerator 0 = .ok (r, g1) ∧
      r.daily_positive = List.replicate
        (Simulator.create 2 (List.replicate 30 0) (List.replicate 30 0)).positive_.length 0 ∧
      r.error = 0 :=
  Simulate_no_tests demoEnv unitGenerator 100 0 2 30 unitGenerator_length rfl
    demoEnv_draw_lt_one demoEnv_symptoms_lt_one

/-- Claim C7 fails for a sequence of draws that contains the severity `1`: on the
single-day series without tests and positives, with `P = 0`, `beta0 = 100` and
`qbeta(100, 1) = 1`, the person admitted on day 1 has `CurrentSymptoms(1) = 1`,
which is not below the threshold, so the code returns
`daily_positive = [0, 1]` and `error = 2` instead of zeros. -/
theorem severity_one_detected :
    peakEnv.qbeta 100 1 = 1 ∧
    (Simulator.create 0 [0] [0]).tested_ = [0, 0] ∧
    (Simulator.create 0 [0] [0]).positive_ = [0, 0] ∧
    (Simulate peakEnv (Simulator.create 0 [0] [0]) 100 unitGenerator 0).toOption.map
      (fun out => (out.1.daily_positive, out.1.error)) = some ([0, 1], 2) := by
  decide!

/-- Witness of `Simulate_detected_le_infected`: the sample simulator. -/
theorem Simulate_detected_le_infected_witness :
    ∃ r g1, Simulate demoEnv demoSim 100 unitGenerator 0 = .ok (r, g1) ∧
      r.daily_positive.length = demoSim.positive_.length ∧
      r.daily_positive.sum ≤ (r.infected.take demoSim.positive_.length).sum ∧
      (r.infected.take demoSim.positive_.length).sum ≤ r.infected.sum :=
  Simulate_detected_le_infected demoEnv demoSim 100 unitGenerator 0 demoSim_tested_covers
    demoSim_drawn_covers

/-- Witness of `Simulate_in_bounds`: two observed days, `P = 3`. -/
theorem Simulate_in_bounds_witness :
    ∃ r g1, Simulate demoEnv (Simulator.create 3 [1, 2] [30, 40]) 100 unitGenerator 0 =
        .ok (r, g1) ∧
      (Simulator.create 3 [1, 2] [30, 40]).tested_.length = 2 + u32 (3 + 1) ∧
      (Simulator.create 3 [1, 2] [30, 40]).positive_.length = 2 + u32 (3 + 1) ∧
      r.infected.length = 2 + u32 (3 + 1) + kExtraDays ∧
      r.daily_positive.length = (Simulator.create 3 [1, 2] [30, 40]).positive_.length ∧
      (3 + 1 < 2 ^ 32 →
        (Simulator.create 3 [1, 2] [30, 40]).positive_.length = 2 + 3 + 1 ∧
        r.infected.length = 2 + 3 + 1 + kExtraDays) :=
  Simulate_in_bounds demoEnv unitGenerator 100 0 3 2 [1, 2] [30, 40] rfl rfl
    unitGenerator_length

/-- Claim C10 fails in its lengths at `prefix_length = 2^32 - 1`: for one
observed day the drawn series has `11` entries and the day loop runs once, not
`D + P + 1 + kExtraDays` entries and `D + P + 1` days. -/
theorem lengths_wrap :
    (GenerateInfected seedEnv (Simulator.create 4294967295 [5] [7]) unitGenerator 0).1.length =
      11 ∧
    (Simulator.create 4294967295 [5] [7]).positive_.length = 1 ∧
    (GenerateInfected seedEnv (Simulator.create 4294967295 [5] [7]) unitGenerator 0).1.length ≠
      1 + 4294967295 + 1 + kExtraDays ∧
    (Simulator.create 4294967295 [5] [7]).positive_.length ≠ 1 + 4294967295 + 1 := by
  decide!

/-! ## The sweep -/

section SweepTheorems

set_option linter.unusedSectionVars false

variable {E G : Type} [LinearOrderedField E] [FloorRing E]

/-- The replicate loop returns when every call of `Simulate` does, and its two
sums are the sums over the results it pushed. -/
theorem replicateLoop_spec (env : Env E G) (sim : Simulator) (generator : GeneratorInterface E)
    (b0 n : Nat) (st : ReplicateState E G)
    (ht : sim.positive_.length ≤ sim.tested_.length)
    (hg : sim.positive_.length ≤
      (generator.CreateDeltas sim.t0_ (sim.tested_.length + kExtraDays)).length) :
    ∃ final pushed, replicateLoop env sim generator b0 n st = .ok final ∧
      final.results = st.results ++ pushed ∧
      pushed.length = n ∧
      final.sum_error = st.sum_error + (pushed.map (fun r => r.error)).sum ∧
      final.dead_count = st.dead_count + (pushed.map (fun r => (r.dead_count.sum : E))).sum := by
  induction n generalizing st with
  | zero => exact ⟨st, [], rfl, by simp, rfl, by simp, by simp⟩
  | succ n ih =>
    obtain ⟨r, g1, hsim, _⟩ := Simulate_spec env sim (b0 : E) generator st.g ht hg
    obtain ⟨final, pushed, hloop, hres, hlen, herr, hdead⟩ :=
      ih { sum_error := st.sum_error + r.error
           dead_count := st.dead_count + (r.dead_count.sum : E)
           results := st.results ++ [r]
           g := g1 }
    refine ⟨final, r :: pushed, ?_, ?_, ?_, ?_, ?_⟩
    · rw [replicateLoop]
      simp only [hsim]
      exact hloop
    · rw [hres]; simp
    · simp [hlen]
    · rw [herr]; simp [add_assoc]
    · rw [hdead]; simp [add_assoc]

/-- One grid point: the node pushed holds `kIterations` results, and the
selection variables change exactly when its mean error is below `best`. -/
theorem gridPoint_spec (env : Env E G) (sim : Simulator) (generator : GeneratorInterface E)
    (b0 : Nat) (st : SweepState E G)
    (ht : sim.positive_.length ≤ sim.tested_.length)
    (hg : sim.positive_.length ≤
      (generator.CreateDeltas sim.t0_ (sim.tested_.length + kExtraDays)).length) :
    ∃ next node, gridPoint env sim generator b0 st = .ok next ∧
      node.b0 = b0 ∧ node.results.length = kIterations ∧
      next.nodes = st.nodes ++ [node] ∧
      (node.meanError < st.best →
        next.optimal_b0 = b0 ∧ next.optimal_dead_count = some ⌊node.meanDeaths⌋₊ ∧
        next.best = node.meanError) ∧
      (¬ node.meanError < st.best →
        next.optimal_b0 = st.optimal_b0 ∧ next.optimal_dead_count = st.optimal_dead_count ∧
        next.best = st.best) := by
  obtain ⟨rep, pushed, hloop, hres, hlen, herr, hdead⟩ :=
    replicateLoop_spec env sim generator b0 kIterations
      { sum_error := 0, dead_count := 0, results := [], g := st.g } ht hg
  have hres' : rep.results = pushed := by rw [hres]; rfl
  have hme : Node.meanError { b0 := b0, results := rep.results } =
      rep.sum_error / (kIterations : E) := by
    simp only [Node.meanError, hres', herr, zero_add]
  have hmd : Node.meanDeaths { b0 := b0, results := rep.results } =
      rep.dead_count / (kIterations : E) := by
    simp only [Node.meanDeaths, hres', hdead, zero_add]
  by_cases hlt : rep.sum_error / (kIterations : E) < st.best
  · refine ⟨{ optimal_b0 := b0
              optimal_dead_count := some ⌊rep.dead_count / (kIterations : E)⌋₊
              best := rep.sum_error / (kIterations : E)
              nodes := st.nodes ++ [{ b0 := b0, results := rep.results }]
              g := rep.g },
      { b0 := b0, results := rep.results }, ?_, rfl, by rw [hres', hlen], rfl, ?_, ?_⟩
    · simp only [gridPoint, hloop, hlt, if_true]
    · intro _
      exact ⟨rfl, by rw [hmd], by rw [hme]⟩
    · intro h
      exact absurd (hme ▸ hlt) h
  · refine ⟨{ st with
              nodes := st.nodes ++ [{ b0 := b0, results := rep.results }]
              g := rep.g },
      { b0 := b0, results := rep.results }, ?_, rfl, by rw [hres', hlen], rfl, ?_, ?_⟩
    · simp only [gridPoint, hloop, hlt, if_false]
    · intro h
      exact absurd (hme ▸ h) hlt
    · intro _
      exact ⟨rfl, rfl, rfl⟩

/-- A grid point keeps the relation `Selection`. -/
theorem gridPoint_selection (st next : SweepState E G) (node : Node E) (b0 : Nat)
    (hb : node.b0 = b0) (hnodes : next.nodes = st.nodes ++ [node])
    (hyes : node.meanError < st.best →
      next.optimal_b0 = b0 ∧ next.optimal_dead_count = some ⌊node.meanDeaths⌋₊ ∧
      next.best = node.meanError)
    (hno : ¬ node.meanError < st.best →
      next.optimal_b0 = st.optimal_b0 ∧ next.optimal_dead_count = st.optimal_dead_count ∧
      next.best = st.best)
    (hsel : Selection st) : Selection next := by
  obtain ⟨hmin, hcase⟩ := hsel
  have hle : st.best ≤ 10 ^ 10 := by
    rcases hcase with ⟨_, _, h⟩ | ⟨h, _⟩
    · exact h.le
    · exact h.le
  by_cases hlt : node.meanError < st.best
  · obtain ⟨h1, h2, h3⟩ := hyes hlt
    refine ⟨?_, Or.inr ⟨by rw [h3]; exact lt_of_lt_of_le hlt hle, node, ?_, ?_, ?_, ?_⟩⟩
    · intro other hmem
      rw [hnodes, List.mem_append, List.mem_singleton] at hmem
      rw [h3]
      rcases hmem with hmem | hmem
      · exact le_trans hlt.le (hmin other hmem)
      · rw [hmem]
    · rw [hnodes]; simp
    · rw [h1, hb]
    · rw [h3]
    · exact h2
  · obtain ⟨h1, h2, h3⟩ := hno hlt
    refine ⟨?_, ?_⟩
    · intro other hmem
      rw [hnodes, List.mem_append, List.mem_singleton] at hmem
      rw [h3]
      rcases hmem with hmem | hmem
      · exact hmin other hmem
      · rw [hmem]; exact not_lt.mp hlt
    · rw [h1, h2, h3]
      rcases hcase with h | ⟨hb10, chosen, hmem, hrest⟩
      · exact Or.inl h
      · exact Or.inr ⟨hb10, chosen, by rw [hnodes]; exact List.mem_append_left _ hmem, hrest⟩

/-- The `b0` loop returns, pushes one node of `kIterations` results per value
visited, in order, and keeps the relation `Selection`. -/
theorem gridLoop_spec (env : Env E G) (sim : Simulator) (generator : GeneratorInterface E)
    (values : List Nat) (st : SweepState E G)
    (ht : sim.positive_.length ≤ sim.tested_.length)
    (hg : sim.positive_.length ≤
      (generator.CreateDeltas sim.t0_ (sim.tested_.length + kExtraDays)).length)
    (hsel : Selection st) :
    ∃ final pushed, gridLoop env sim generator values st = .ok final ∧
      final.nodes = st.nodes ++ pushed ∧
      pushed.map (fun node => node.b0) = values ∧
      (∀ node ∈ pushed, node.results.length = kIterations) ∧
      Selection final := by
  induction values generalizing st with
  | nil => exact ⟨st, [], rfl, by simp, rfl, by simp, hsel⟩
  | cons b0 rest ih =>
    obtain ⟨next, node, hpoint, hb, hlen, hnodes, hyes, hno⟩ :=
      gridPoint_spec env sim generator b0 st ht hg
    obtain ⟨final, pushed, hloop, hfn, hmap, hall, hfin⟩ :=
      ih next (gridPoint_selection st next node b0 hb hnodes hyes hno hsel)
    refine ⟨final, node :: pushed, ?_, ?_, ?_, ?_, hfin⟩
    · rw [gridLoop]
      simp only [hpoint]
      exact hloop
    · rw [hfn, hnodes]; simp
    · simp [hb, hmap]
    · intro other hmem
      rcases List.mem_cons.mp hmem with h | h
      · rw [h]; exact hlen
      · exact hall other h

/-- What one iteration of the `prefix_length` loop of `main` computes, for
series of equal length and a generator that returns as many means as asked. -/
theorem sweep_spec (env : Env E G) (generator : GeneratorInterface E) (P : Nat)
    (positive tested : List Nat) (g : G)
    (hlen : tested.length = positive.length)
    (hgen : ∀ t n, (generator.CreateDeltas t n).length = n) :
    ∃ final, sweep env generator P positive tested g = .ok final ∧
      final.nodes.map (fun node => node.b0) = grid ∧
      (∀ node ∈ final.nodes, node.results.length = kIterations) ∧
      Selection final := by
  have hu : u32 (2 ^ 32 - 1) = 4294967295 := by decide
  obtain ⟨final, pushed, hloop, hfn, hmap, hall, hfin⟩ :=
    gridLoop_spec env (Simulator.create P positive tested) generator grid
      { optimal_b0 := u32 (2 ^ 32 - 1)
        optimal_dead_count := none
        best := 10 ^ 10
        nodes := []
        g := g }
      (by rw [create_tested_length, create_positive_length, hlen])
      (by rw [hgen, create_tested_length, create_positive_length, hlen]; omega)
      ⟨by simp, Or.inl ⟨hu, rfl, rfl⟩⟩
  have hfn' : final.nodes = pushed := by rw [hfn]; rfl
  exact ⟨final, hloop, by rw [hfn', hmap], by rw [hfn']; exact hall, hfin⟩

end SweepTheorems

section SweepClaims

set_option linter.unusedSectionVars false

variable {E G : Type} [LinearOrderedField E] [FloorRing E]

theorem grid_nodup : grid.Nodup := by decide

/-- With some mean error below `10^10`, the selection has left its initial values. -/
theorem Selection.chosen (st : SweepState E G) (hsel : Selection st)
    (hsome : ∃ node ∈ st.nodes, node.meanError < 10 ^ 10) :
    ∃ node ∈ st.nodes, node.b0 = st.optimal_b0 ∧ node.meanError = st.best ∧
      st.optimal_dead_count = some ⌊node.meanDeaths⌋₊ := by
  obtain ⟨hmin, hcase⟩ := hsel
  rcases hcase with ⟨_, _, hbest⟩ | ⟨_, h⟩
  · obtain ⟨node, hmem, hlt⟩ := hsome
    have := hmin node hmem
    rw [hbest] at this
    exact absurd hlt (not_lt.mpr this)
  · exact h

/-- Claim C4, as amended: for series of equal length and a generator that
returns as many means as asked, the sweep of one `prefix_length` returns, having
evaluated exactly the grid values `60, 63, ..., 198`; `best` is at most the mean
error of every evaluated grid value; if some mean error is below `10^10`, then
`optimal_b0` is an evaluated grid value whose mean error is `best`; if none is,
`optimal_b0` keeps its initial value `4294967295` and `best` is `10^10`. -/
theorem sweep_optimal (env : Env E G) (generator : GeneratorInterface E) (P : Nat)
    (positive tested : List Nat) (g : G)
    (hlen : tested.length = positive.length)
    (hgen : ∀ t n, (generator.CreateDeltas t n).length = n) :
    ∃ final, sweep env generator P positive tested g = .ok final ∧
      final.nodes.map (fun node => node.b0) = grid ∧
      (∀ node ∈ final.nodes, node.results.length = kIterations ∧
        final.best ≤ (node.results.map (fun r => r.error)).sum / (kIterations : E)) ∧
      ((∃ node ∈ final.nodes,
          (node.results.map (fun r => r.error)).sum / (kIterations : E) < 10 ^ 10) →
        final.optimal_b0 ∈ grid ∧
        ∃ node ∈ final.nodes, node.b0 = final.optimal_b0 ∧
          (node.results.map (fun r => r.error)).sum / (kIterations : E) = final.best) ∧
      ((∀ node ∈ final.nodes,
          (10 : E) ^ 10 ≤ (node.results.map (fun r => r.error)).sum / (kIterations : E)) →
        final.optimal_b0 = 4294967295 ∧ final.best = 10 ^ 10) := by
  obtain ⟨final, hsweep, hgrid, hall, hsel⟩ :=
    sweep_spec env generator P positive tested g hlen hgen
  refine ⟨final, hsweep, hgrid, fun node hmem => ⟨hall node hmem, hsel.1 node hmem⟩, ?_, ?_⟩
  · intro hsome
    obtain ⟨node, hmem, hb, hme, _⟩ := Selection.chosen final hsel hsome
    refine ⟨?_, node, hmem, hb, hme⟩
    rw [← hgrid, ← hb]
    exact List.mem_map_of_mem _ hmem
  · intro hnone
    rcases hsel.2 with ⟨h1, _, h3⟩ | ⟨hlt, node, hmem, _, hme, _⟩
    · exact ⟨h1, h3⟩
    · have := hnone node hmem
      rw [show (node.results.map (fun r => r.error)).sum / (kIterations : E) = node.meanError
        from rfl, hme] at this
      exact absurd hlt (not_lt.mpr this)

/-- Claim C9, as amended: for series of equal length and a generator that
returns as many means as asked, if some evaluated grid value has a mean error
below `10^10`, then the printed `dead_count` is the integer part of the mean,
over the `kIterations = 50` replicates run at the reported `optimal_b0`, of the
replicate's total deaths. -/
theorem sweep_dead_count (env : Env E G) (generator : GeneratorInterface E) (P : Nat)
    (positive tested : List Nat) (g : G)
    (hlen : tested.length = positive.length)
    (hgen : ∀ t n, (generator.CreateDeltas t n).length = n) :
    ∃ final, sweep env generator P positive tested g = .ok final ∧
      ((∃ node ∈ final.nodes,
          (node.results.map (fun r => r.error)).sum / (kIterations : E) < 10 ^ 10) →
        (∃ node ∈ final.nodes, node.b0 = final.optimal_b0) ∧
        ∀ node ∈ final.nodes, node.b0 = final.optimal_b0 →
          node.results.length = kIterations ∧
          final.optimal_dead_count = some
            ⌊(node.results.map (fun r => (r.dead_count.sum : E))).sum / (kIterations : E)⌋₊) := by
  obtain ⟨final, hsweep, hgrid, hall, hsel⟩ :=
    sweep_spec env generator P positive tested g hlen hgen
  refine ⟨final, hsweep, ?_⟩
  intro hsome
  obtain ⟨chosen, hmem, hb, _, hdead⟩ := Selection.chosen final hsel hsome
  refine ⟨⟨chosen, hmem, hb⟩, ?_⟩
  intro node hnode hnb
  have hnd : (final.nodes.map (fun node => node.b0)).Nodup := by rw [hgrid]; exact grid_nodup
  have heq : node = chosen :=
    List.inj_on_of_nodup_map hnd hnode hmem (by rw [hnb, hb])
  rw [heq]
  exact ⟨hall chosen hmem, hdead⟩

end SweepClaims

/-- Witness of `sweep_optimal`: two observed days, `P = 3`. -/
theorem sweep_optimal_witness :
    ∃ final, sweep demoEnv unitGenerator 3 [1, 2] [30, 40] 0 = .ok final ∧
      final.nodes.map (fun node => node.b0) = grid ∧
      (∀ node ∈ final.nodes, node.results.length = kIterations ∧
        final.best ≤ (node.results.map (fun r => r.error)).sum / (kIterations : ℚ)) ∧
      ((∃ node ∈ final.nodes,
          (node.results.map (fun r => r.error)).sum / (kIterations : ℚ) < 10 ^ 10) →
        final.optimal_b0 ∈ grid ∧
        ∃ node ∈ final.nodes, node.b0 = final.optimal_b0 ∧
          (node.results.map (fun r => r.error)).sum / (kIterations : ℚ) = final.best) ∧
      ((∀ node ∈ final.nodes,
          (10 : ℚ) ^ 10 ≤ (node.results.map (fun r => r.error)).sum / (kIterations : ℚ)) →
        final.optimal_b0 = 4294967295 ∧ final.best = 10 ^ 10) :=
  sweep_optimal demoEnv unitGenerator 3 [1, 2] [30, 40] 0 rfl unitGenerator_length

/-- Witness of `sweep_dead_count`: two observed days, `P = 3`. -/
theorem sweep_dead_count_witness :
    ∃ final, sweep demoEnv unitGenerator 3 [1, 2] [30, 40] 0 = .ok final ∧
      ((∃ node ∈ final.nodes,
          (node.results.map (fun r => r.error)).sum / (kIterations : ℚ) < 10 ^ 10) →
        (∃ node ∈ final.nodes, node.b0 = final.optimal_b0) ∧
        ∀ node ∈ final.nodes, node.b0 = final.optimal_b0 →
          node.results.length = kIterations ∧
          final.optimal_dead_count = some
            ⌊(node.results.map (fun r => (r.dead_count.sum : ℚ))).sum / (kIterations : ℚ)⌋₊) :=
  sweep_dead_count demoEnv unitGenerator 3 [1, 2] [30, 40] 0 rfl unitGenerator_length

/-! ## Runs without infections -/

section IdleTheorems

set_option linter.unusedSectionVars false

variable {E G : Type} [LinearOrderedField E] [FloorRing E]

/-- The detection of a day with an empty roster and no simulated positives so
far: nobody is detected and the day is scored with a zero count. -/
theorem detect_idle (env : Env E G) (sim : Simulator) (beta0 : E) (day : Nat)
    (st : DayState E G) (tested positive : Nat)
    (ht : sim.tested_[day]? = some tested) (hp : sim.positive_[day]? = some positive)
    (hroster : st.persons = []) (hcum : st.cumulative_positive = 0) :
    ∃ next, detect env sim beta0 day st = .ok next ∧
      next.persons = [] ∧ next.cumulative_positive = 0 ∧
      next.result.dead_count = st.result.dead_count ∧ next.g = st.g ∧
      next.result.error = st.result.error +
        (if scored 0 positive then -env.log_distance_probability 0 positive else 0) := by
  refine ⟨_, detect_eq env sim beta0 day st tested positive ht hp, ?_, ?_, rfl, rfl, ?_⟩
  · simp only [hroster, List.partition_eq_filter_filter, List.filter_nil]
  · simp only [hroster, hcum, List.partition_eq_filter_filter, List.filter_nil,
      List.length_nil, Nat.cast_zero, add_zero, toInt32_zero]
  · simp only [hroster, hcum, List.partition_eq_filter_filter, List.filter_nil,
      List.length_nil, Nat.cast_zero, add_zero, toInt32_zero]
    split
    · rw [sub_eq_add_neg]
    · rw [add_zero]

/-- The day loop over days on which nobody is admitted to an empty roster:
nobody is detected, no death is recorded, no draw is made, and every day is
scored with zero cumulative simulated positives. -/
theorem dayLoop_idle (env : Env E G) (sim : Simulator) (beta0 : E) (infected : List Nat)
    (n day : Nat) (st : DayState E G)
    (hz : ∀ d, day ≤ d → d < day + n → infected[d]? = some 0)
    (ht : day + n ≤ sim.tested_.length) (hp : day + n ≤ sim.positive_.length)
    (hroster : st.persons = []) (hcum : st.cumulative_positive = 0) :
    ∃ final, dayLoop env sim beta0 infected n day st = .ok final ∧
      final.result.dead_count = st.result.dead_count ∧
      final.g = st.g ∧
      final.result.error = st.result.error +
        ((List.range' day n).map (fun d =>
          if scored 0 (sim.positive_.getD d 0) then
            -env.log_distance_probability 0 (sim.positive_.getD d 0)
          else 0)).sum := by
  induction n generalizing day st with
  | zero => exact ⟨st, rfl, rfl, rfl, by simp⟩
  | succ n ih =>
    have hdt : day < sim.tested_.length := by omega
    have hdp : day < sim.positive_.length := by omega
    have hstep : dayStep env sim beta0 infected day st = detect env sim beta0 day st := by
      rw [dayStep, hz day (Nat.le_refl _) (by omega)]
      rfl
    obtain ⟨next, hdet, hnr, hnc, hnd, hng, hne⟩ :=
      detect_idle env sim beta0 day st sim.tested_[day] sim.positive_[day]
        (List.getElem?_eq_getElem hdt) (List.getElem?_eq_getElem hdp) hroster hcum
    obtain ⟨final, hloop, hdead, hg, herr⟩ :=
      ih (day + 1) next (fun d h1 h2 => hz d (by omega) (by omega)) (by omega) (by omega)
        hnr hnc
    refine ⟨final, ?_, by rw [hdead, hnd], by rw [hg, hng], ?_⟩
    · rw [dayLoop, hstep, hdet]
      exact hloop
    · rw [herr, hne, List.range'_succ, List.map_cons, List.sum_cons, ← add_assoc]
      simp only [List.getD_eq_getElem?_getD, List.getElem?_eq_getElem hdp, Option.getD_some]

/-- A call of `Simulate` whose drawn series is zero on the days of `positive_`:
it returns the generator as the draws of `GenerateInfected` left it, records no
death, and its error is `idleError`. -/
theorem Simulate_idle (env : Env E G) (sim : Simulator) (beta0 : E)
    (generator : GeneratorInterface E) (g : G)
    (ht : sim.positive_.length ≤ sim.tested_.length)
    (hz : ∀ d, d < sim.positive_.length →
      (GenerateInfected env sim generator g).1[d]? = some 0) :
    ∃ r, Simulate env sim beta0 generator g =
        .ok (r, (GenerateInfected env sim generator g).2) ∧
      r.dead_count = [] ∧ r.error = idleError env sim := by
  obtain ⟨final, hloop, hdead, hg, herr⟩ :=
    dayLoop_idle env sim beta0 (GenerateInfected env sim generator g).1
      sim.positive_.length 0
      (initialState (GenerateInfected env sim generator g).1
        (GenerateInfected env sim generator g).2)
      (fun d _ h => hz d (by omega)) (by omega) (by omega) rfl rfl
  refine ⟨final.result, ?_, ?_, ?_⟩
  · simp only [Simulate, hloop]
    rw [hg]
    rfl
  · rw [hdead]; rfl
  · rw [herr, idleError, List.range_eq_range']
    simp [initialState]

end IdleTheorems

section GridPointFromReplicates

set_option linter.unusedSectionVars false

variable {E G : Type} [LinearOrderedField E] [FloorRing E]

/-- One grid point in terms of the final state `rep` of its replicate loop: the
means of the pushed node are the two sums of `rep` over `kIterations`. -/
theorem gridPoint_of_replicates (env : Env E G) (sim : Simulator)
    (generator : GeneratorInterface E) (b0 : Nat) (st : SweepState E G)
    (rep : ReplicateState E G)
    (ht : sim.positive_.length ≤ sim.tested_.length)
    (hg : sim.positive_.length ≤
      (generator.CreateDeltas sim.t0_ (sim.tested_.length + kExtraDays)).length)
    (hrep : replicateLoop env sim generator b0 kIterations
      { sum_error := 0, dead_count := 0, results := [], g := st.g } = .ok rep) :
    ∃ next node, gridPoint env sim generator b0 st = .ok next ∧
      next.g = rep.g ∧ node.b0 = b0 ∧ next.nodes = st.nodes ++ [node] ∧
      node.meanError = rep.sum_error / (kIterations : E) ∧
      node.meanDeaths = rep.dead_count / (kIterations : E) ∧
      (rep.sum_error / (kIterations : E) < st.best →
        next.optimal_b0 = b0 ∧
        next.optimal_dead_count = some ⌊rep.dead_count / (kIterations : E)⌋₊ ∧
        next.best = rep.sum_error / (kIterations : E)) ∧
      (¬ rep.sum_error / (kIterations : E) < st.best →
        next.optimal_b0 = st.optimal_b0 ∧ next.optimal_dead_count = st.optimal_dead_count ∧
        next.best = st.best) := by
  obtain ⟨rep1, pushed, hloop, hres, _, herr, hdead⟩ :=
    replicateLoop_spec env sim generator b0 kIterations
      { sum_error := 0, dead_count := 0, results := [], g := st.g } ht hg
  have heq : rep1 = rep := Except.ok.inj (hloop.symm.trans hrep)
  rw [heq] at hres herr hdead
  have hres1 : rep.results = pushed := by rw [hres]; rfl
  have hme : Node.meanError { b0 := b0, results := rep.results } =
      rep.sum_error / (kIterations : E) := by
    simp only [Node.meanError, hres1, herr, zero_add]
  have hmd : Node.meanDeaths { b0 := b0, results := rep.results } =
      rep.dead_count / (kIterations : E) := by
    simp only [Node.meanDeaths, hres1, hdead, zero_add]
  by_cases hlt : rep.sum_error / (kIterations : E) < st.best
  · refine ⟨{ optimal_b0 := b0
              optimal_dead_count := some ⌊rep.dead_count / (kIterations : E)⌋₊
              best := rep.sum_error / (kIterations : E)
              nodes := st.nodes ++ [{ b0 := b0, results := rep.results }]
              g := rep.g },
      { b0 := b0, results := rep.results }, ?_, rfl, rfl, rfl, hme, hmd, ?_, ?_⟩
    · simp only [gridPoint, hrep, hlt, if_true]
    · intro _
      exact ⟨rfl, rfl, rfl⟩
    · intro h
      exact absurd hlt h
  · refine ⟨{ st with
              nodes := st.nodes ++ [{ b0 := b0, results := rep.results }]
              g := rep.g },
      { b0 := b0, results := rep.results }, ?_, rfl, rfl, rfl, hme, hmd, ?_, ?_⟩
    · simp only [gridPoint, hrep, hlt, if_false]
    · intro h
      exact absurd h hlt
    · intro _
      exact ⟨rfl, rfl, rfl⟩

end GridPointFromReplicates

/-! ## The sweep with a single infection -/

theorem seedOnce_pos (g : Nat) (h : 1 ≤ g) : seedOnce g = 0 := by
  simp only [seedOnce]
  rw [if_neg]
  omega

/-- After the first draw, `seedEnv` draws no infection. -/
theorem drawInfected_seed (means : List ℚ) (g : Nat) (h : 1 ≤ g) :
    drawInfected seedEnv means g = (List.replicate means.length 0, g + means.length) := by
  induction means generalizing g with
  | nil => rfl
  | cons mean rest ih =>
    have hp : seedEnv.poisson mean g = (0, g + 1) := by
      simp only [seedEnv, tableEnv, seedOnce_pos g h]
    rw [drawInfected, hp, ih (g + 1) (by omega)]
    simp only [List.length_cons, List.replicate_succ, Prod.mk.injEq, true_and]
    omega

/-- A call of `Simulate` with `seedEnv` after the first draw: no infection, no
death, error `idleError`, and the generator state advanced by the Poisson
draws. -/
theorem Simulate_seed_idle (sim : Simulator) (beta0 : ℚ) (g : Nat)
    (ht : sim.positive_.length ≤ sim.tested_.length) (h : 1 ≤ g) :
    ∃ r, Simulate seedEnv sim beta0 unitGenerator g =
        .ok (r, g + (sim.tested_.length + kExtraDays)) ∧
      r.dead_count = [] ∧ r.error = idleError seedEnv sim := by
  have hgen : GenerateInfected seedEnv sim unitGenerator g =
      (List.replicate (sim.tested_.length + kExtraDays) 0,
        g + (sim.tested_.length + kExtraDays)) := by
    rw [GenerateInfected, drawInfected_seed _ g h, unitGenerator_length]
  obtain ⟨r, hsim, hdead, herr⟩ := Simulate_idle seedEnv sim beta0 unitGenerator g ht
    (fun d hd => by
      rw [hgen]
      simp only [List.getElem?_replicate]
      rw [if_pos (by omega)])
  rw [hgen] at hsim
  exact ⟨r, hsim, hdead, herr⟩

/-- The replicate loop with `seedEnv` after the first draw: every replicate adds
`idleError` to the error sum and nothing to the death sum. -/
theorem replicateLoop_seed_idle (sim : Simulator) (b0 n : Nat) (st : ReplicateState ℚ Nat)
    (ht : sim.positive_.length ≤ sim.tested_.length) (h : 1 ≤ st.g) :
    ∃ final, replicateLoop seedEnv sim unitGenerator b0 n st = .ok final ∧
      1 ≤ final.g ∧
      final.sum_error = st.sum_error + (n : ℚ) * idleError seedEnv sim ∧
      final.dead_count = st.dead_count := by
  induction n generalizing st with
  | zero => exact ⟨st, rfl, h, by simp, rfl⟩
  | succ n ih =>
    obtain ⟨r, hsim, hdead, herr⟩ := Simulate_seed_idle sim (b0 : ℚ) st.g ht h
    obtain ⟨final, hloop, hg, hse, hdc⟩ :=
      ih { sum_error := st.sum_error + r.error
           dead_count := st.dead_count + (r.dead_count.sum : ℚ)
           results := st.results ++ [r]
           g := st.g + (sim.tested_.length + kExtraDays) }
        (Nat.le_trans h (Nat.le_add_right _ _))
    refine ⟨final, ?_, hg, ?_, ?_⟩
    · rw [replicateLoop]
      simp only [hsim]
      exact hloop
    · rw [hse, herr]
      push_cast
      ring
    · rw [hdc, hdead]
      simp

theorem kIterations_cast : ((kIterations : Nat) : ℚ) = 50 := by
  norm_num [kIterations]

/-- A grid point with `seedEnv` after the first draw, when `idleError` is not
below `best`: the selection is unchanged and the pushed node has mean error
`idleError`. -/
theorem gridPoint_seed_idle (sim : Simulator) (b0 : Nat) (st : SweepState ℚ Nat)
    (ht : sim.positive_.length ≤ sim.tested_.length) (h : 1 ≤ st.g)
    (hK : ¬ idleError seedEnv sim < st.best) :
    ∃ next node, gridPoint seedEnv sim unitGenerator b0 st = .ok next ∧
      1 ≤ next.g ∧ next.optimal_b0 = st.optimal_b0 ∧
      next.optimal_dead_count = st.optimal_dead_count ∧ next.best = st.best ∧
      next.nodes = st.nodes ++ [node] ∧ node.b0 = b0 ∧
      node.meanError = idleError seedEnv sim := by
  obtain ⟨rep, hrep, hg, hse, _⟩ :=
    replicateLoop_seed_idle sim b0 kIterations
      { sum_error := 0, dead_count := 0, results := [], g := st.g } ht h
  have hmean : rep.sum_error / (kIterations : ℚ) = idleError seedEnv sim := by
    rw [hse, kIterations_cast]
    ring
  obtain ⟨next, node, hpoint, hng, hb, hnodes, hme, _, _, hno⟩ :=
    gridPoint_of_replicates seedEnv sim unitGenerator b0 st rep ht
      (by rw [unitGenerator_length]; omega) hrep
  obtain ⟨h1, h2, h3⟩ := hno (by rw [hmean]; exact hK)
  exact ⟨next, node, hpoint, by rw [hng]; exact hg, h1, h2, h3, hnodes, hb, by rw [hme, hmean]⟩

/-- The `b0` loop with `seedEnv` after the first draw, when `idleError` is not
below `best`: the selection is unchanged and every pushed node has mean error
`idleError`. -/
theorem gridLoop_seed_idle (sim : Simulator) (values : List Nat) (st : SweepState ℚ Nat)
    (ht : sim.positive_.length ≤ sim.tested_.length) (h : 1 ≤ st.g)
    (hK : ¬ idleError seedEnv sim < st.best) :
    ∃ final pushed, gridLoop seedEnv sim unitGenerator values st = .ok final ∧
      final.optimal_b0 = st.optimal_b0 ∧
      final.optimal_dead_count = st.optimal_dead_count ∧ final.best = st.best ∧
      final.nodes = st.nodes ++ pushed ∧
      pushed.map (fun node => node.b0) = values ∧
      ∀ node ∈ pushed, node.meanError = idleError seedEnv sim := by
  induction values generalizing st with
  | nil => exact ⟨st, [], rfl, rfl, rfl, rfl, by simp, rfl, by simp⟩
  | cons b0 rest ih =>
    obtain ⟨next, node, hpoint, hg, h1, h2, h3, hnodes, hb, hme⟩ :=
      gridPoint_seed_idle sim b0 st ht h hK
    obtain ⟨final, pushed, hloop, f1, f2, f3, hfn, hmap, hall⟩ :=
      ih next hg (by rw [h3]; exact hK)
    refine ⟨final, node :: pushed, ?_, by rw [f1, h1], by rw [f2, h2], by rw [f3, h3], ?_, ?_, ?_⟩
    · rw [gridLoop]
      simp only [hpoint]
      exact hloop
    · rw [hfn, hnodes]; simp
    · simp [hb, hmap]
    · intro other hmem
      rcases List.mem_cons.mp hmem with hm | hm
      · rw [hm]; exact hme
      · exact hall other hm

/-- The replicate loop of a grid point whose first call of `Simulate` returns
`r0` and leaves `seedEnv` past its first draw. -/
theorem replicateLoop_seed_first (sim : Simulator) (b0 g g1 : Nat) (r0 : SimulationResult ℚ)
    (ht : sim.positive_.length ≤ sim.tested_.length)
    (h0 : Simulate seedEnv sim (b0 : ℚ) unitGenerator g = .ok (r0, g1)) (hg1 : 1 ≤ g1) :
    ∃ rep, replicateLoop seedEnv sim unitGenerator b0 kIterations
        { sum_error := 0, dead_count := 0, results := [], g := g } = .ok rep ∧
      1 ≤ rep.g ∧
      rep.sum_error = r0.error + 49 * idleError seedEnv sim ∧
      rep.dead_count = (r0.dead_count.sum : ℚ) := by
  obtain ⟨rep, hloop, hg, hse, hdc⟩ :=
    replicateLoop_seed_idle sim b0 49
      { sum_error := 0 + r0.error
        dead_count := 0 + (r0.dead_count.sum : ℚ)
        results := [] ++ [r0]
        g := g1 } ht hg1
  refine ⟨rep, ?_, hg, ?_, ?_⟩
  · have hk : kIterations = 49 + 1 := rfl
    rw [hk, replicateLoop]
    simp only [h0]
    exact hloop
  · rw [hse]
    push_cast
    ring
  · rw [hdc]
    ring

theorem grid_eq_cons : grid = 60 :: List.range' 63 46 3 := by decide

theorem unitGenerator_covers (sim : Simulator)
    (ht : sim.positive_.length ≤ sim.tested_.length) :
    sim.positive_.length ≤
      (unitGenerator.CreateDeltas sim.t0_ (sim.tested_.length + kExtraDays)).length := by
  rw [unitGenerator_length]
  omega

theorem floodSim_tested_covers : floodSim.positive_.length ≤ floodSim.tested_.length := by
  decide

theorem calmSim_tested_covers : calmSim.positive_.length ≤ calmSim.tested_.length := by
  decide

theorem flood_idleError : idleError seedEnv floodSim = 12000000000 := by
  decide!

theorem calm_idleError : idleError seedEnv calmSim = 0 := by
  decide!

/-- The first replicate of the sweep over `floodSim`: one person is admitted and
never detected, and each of the six observed days is scored `2 * 10^9`. -/
theorem flood_first_run :
    (Simulate seedEnv floodSim ((60 : Nat) : ℚ) unitGenerator 0).toOption.map
      (fun out => (out.1.error, decide (1 ≤ out.2))) = some (12000000000, true) := by
  decide!

/-- The first replicate of the sweep over `calmSim`: one person is admitted,
dies, and is never detected; nothing is scored. -/
theorem calm_first_run :
    (Simulate seedEnv calmSim ((60 : Nat) : ℚ) unitGenerator 0).toOption.map
      (fun out => (out.1.error, out.1.dead_count.sum, decide (1 ≤ out.2))) =
      some (0, 1, true) := by
  decide!

/-- Claim C4 fails when no mean error is below `10^10`: with `4 * 10^9` observed
positives on the first of six days and no tests, every replicate has error
`6 * (2 * 10^9)`, so every evaluated grid value has mean error `12 * 10^9`, none
is selected, and the reported `optimal_b0` is `4294967295`, not a grid value. -/
theorem nothing_selected :
    ∃ final,
      sweep seedEnv unitGenerator 2 [4000000000, 0, 0, 0, 0, 0] [0, 0, 0, 0, 0, 0] 0 =
        .ok final ∧
      final.nodes.map (fun node => node.b0) = grid ∧
      (∀ node ∈ final.nodes, node.meanError = 12000000000) ∧
      final.optimal_b0 = 4294967295 ∧ final.optimal_b0 ∉ grid ∧ final.best = 10 ^ 10 := by
  obtain ⟨r0, g1, h0, _⟩ := Simulate_spec seedEnv floodSim ((60 : Nat) : ℚ) unitGenerator 0
    floodSim_tested_covers (unitGenerator_covers _ floodSim_tested_covers)
  have hfirst := flood_first_run
  rw [h0] at hfirst
  simp only [Except.toOption, Option.map_some', Option.some.injEq, Prod.mk.injEq,
    decide_eq_true_eq] at hfirst
  obtain ⟨he0, hg1⟩ := hfirst
  obtain ⟨rep, hrep, hrg, hse, _⟩ :=
    replicateLoop_seed_first floodSim 60 0 g1 r0 floodSim_tested_covers h0 hg1
  have hmean : rep.sum_error / (kIterations : ℚ) = 12000000000 := by
    rw [hse, he0, flood_idleError, kIterations_cast]
    norm_num
  obtain ⟨next, node, hpoint, hng, hb, hnodes, hme, _, _, hno⟩ :=
    gridPoint_of_replicates seedEnv floodSim unitGenerator 60
      { optimal_b0 := u32 (2 ^ 32 - 1)
        optimal_dead_count := none
        best := 10 ^ 10
        nodes := []
        g := 0 } rep floodSim_tested_covers (unitGenerator_covers _ floodSim_tested_covers) hrep
  obtain ⟨h1, _, h3⟩ := hno (by rw [hmean]; norm_num)
  obtain ⟨final, pushed, hloop, f1, _, f3, hfn, hmap, hall⟩ :=
    gridLoop_seed_idle floodSim (List.range' 63 46 3) next floodSim_tested_covers
      (by rw [hng]; exact hrg) (by rw [h3, flood_idleError]; norm_num)
  have hopt : final.optimal_b0 = 4294967295 := by
    rw [f1, h1]
    decide
  refine ⟨final, ?_, ?_, ?_, hopt, ?_, by rw [f3, h3]⟩
  · show gridLoop seedEnv floodSim unitGenerator grid _ = _
    rw [grid_eq_cons, gridLoop]
    simp only [hpoint]
    exact hloop
  · rw [hfn, hnodes, grid_eq_cons]
    simp [hb, hmap]
  · intro other hmem
    rw [hfn, hnodes] at hmem
    simp only [List.nil_append, List.mem_append, List.mem_singleton] at hmem
    rcases hmem with hm | hm
    · rw [hm, hme, hmean]
    · rw [hall other hm, flood_idleError]
  · rw [hopt]
    decide

/-- Claim C9 fails when the mean is not an integer: with one death in the first
replicate at `b0 = 60` and none elsewhere, `optimal_b0` is `60`, the mean of the
total deaths over its 50 replicates is `1/50`, and the printed `dead_count` is
`0`. -/
theorem dead_count_truncated :
    ∃ final, sweep seedEnv unitGenerator 2 [0] [0] 0 = .ok final ∧
      final.optimal_b0 = 60 ∧ final.optimal_dead_count = some 0 ∧
      ∃ node ∈ final.nodes, node.b0 = 60 ∧
        (node.results.map (fun r => (r.dead_count.sum : ℚ))).sum / (kIterations : ℚ) = 1 / 50 := by
  obtain ⟨r0, g1, h0, _⟩ := Simulate_spec seedEnv calmSim ((60 : Nat) : ℚ) unitGenerator 0
    calmSim_tested_covers (unitGenerator_covers _ calmSim_tested_covers)
  have hfirst := calm_first_run
  rw [h0] at hfirst
  simp only [Except.toOption, Option.map_some', Option.some.injEq, Prod.mk.injEq,
    decide_eq_true_eq] at hfirst
  obtain ⟨he0, hd0, hg1⟩ := hfirst
  obtain ⟨rep, hrep, hrg, hse, hdc⟩ :=
    replicateLoop_seed_first calmSim 60 0 g1 r0 calmSim_tested_covers h0 hg1
  have hmean : rep.sum_error / (kIterations : ℚ) = 0 := by
    rw [hse, he0, calm_idleError]
    norm_num
  have hdead : rep.dead_count / (kIterations : ℚ) = 1 / 50 := by
    rw [hdc, hd0, kIterations_cast]
    norm_num
  obtain ⟨next, node, hpoint, hng, hb, hnodes, _, hmd, hyes, _⟩ :=
    gridPoint_of_replicates seedEnv calmSim unitGenerator 60
      { optimal_b0 := u32 (2 ^ 32 - 1)
        optimal_dead_count := none
        best := 10 ^ 10
        nodes := []
        g := 0 } rep calmSim_tested_covers (unitGenerator_covers _ calmSim_tested_covers) hrep
  obtain ⟨h1, h2, h3⟩ := hyes (by rw [hmean]; norm_num)
  obtain ⟨final, pushed, hloop, f1, f2, _, hfn, _, _⟩ :=
    gridLoop_seed_idle calmSim (List.range' 63 46 3) next calmSim_tested_covers
      (by rw [hng]; exact hrg) (by rw [h3, hmean, calm_idleError]; norm_num)
  have hfloor : ⌊(1 / 50 : ℚ)⌋₊ = 0 := Nat.floor_eq_zero.mpr (by norm_num)
  refine ⟨final, ?_, by rw [f1, h1], by rw [f2, h2, hdead, hfloor], node, ?_, hb, ?_⟩
  · show gridLoop seedEnv calmSim unitGenerator grid _ = _
    rw [grid_eq_cons, gridLoop]
    simp only [hpoint]
    exact hloop
  · rw [hfn, hnodes]
    simp
  · show node.meanDeaths = 1 / 50
    rw [hmd, hdead]

/-! ## The scoring function -/

theorem poissonMass_pos (m : ℝ) (k : Nat) (hm : 0 < m) : 0 < poissonMass m k := by
  unfold poissonMass
  have h1 : 0 < Real.exp (-m) := Real.exp_pos _
  have h2 : 0 < m ^ k := pow_pos hm k
  have h3 : (0 : ℝ) < (k.factorial : ℝ) := Nat.cast_pos.mpr (Nat.factorial_pos k)
  exact div_pos (mul_pos h1 h2) h3

/-- Claim C5: for counts `a`, `b` with `a + b > 0` and `m = (a + b) / 2`,
`exp (log_distance a b)` is the product `P(a; m) * P(b; m)` of Poisson masses,
and `log_distance a b = log_distance b a`. -/
theorem log_distance_poisson (a b : Nat) (h : 0 < a + b) :
    Real.exp (log_distance a b) =
      poissonMass (((a : ℝ) + (b : ℝ)) / 2) a * poissonMass (((a : ℝ) + (b : ℝ)) / 2) b ∧
    log_distance a b = log_distance b a := by
  have hm : (0 : ℝ) < ((a : ℝ) + (b : ℝ)) / 2 := by
    have : (0 : ℝ) < ((a + b : Nat) : ℝ) := Nat.cast_pos.mpr h
    push_cast at this
    linarith
  constructor
  · unfold log_distance
    rw [Real.exp_add, Real.exp_log (poissonMass_pos _ a hm),
      Real.exp_log (poissonMass_pos _ b hm)]
  · unfold log_distance
    rw [add_comm (b : ℝ) (a : ℝ), add_comm (Real.log _)]

/-- Witness of `log_distance_poisson` at the split `3 + 19 = 22` of the test. -/
theorem log_distance_poisson_witness :
    Real.exp (log_distance 3 19) =
      poissonMass ((((3 : Nat) : ℝ) + ((19 : Nat) : ℝ)) / 2) 3 *
        poissonMass ((((3 : Nat) : ℝ) + ((19 : Nat) : ℝ)) / 2) 19 ∧
    log_distance 3 19 = log_distance 19 3 :=
  log_distance_poisson 3 19 (by decide)

end Simulation
